import Mathlib

/-!
Verification of the CSV-to-static-site generator (three variants:
`build_sites.py`, `generate_sites.py`, `scripts/generate_sites.py`).
Strings are modelled as `List Char`; each Python helper is embedded as a
Lean function over that representation.
-/

set_option maxHeartbeats 1000000
set_option maxRecDepth 100000

/-- Python strings are modelled as lists of characters. -/
abbrev Str := List Char

namespace Py

/-- The whitespace characters removed by Python `str.strip()`
(the ASCII whitespace set; the inputs manipulated here contain no
exotic Unicode whitespace). -/
def isSpace (c : Char) : Bool :=
  c = ' ' || c = '\t' || c = '\n' || c = '\x0d' || c = '\x0b' || c = '\x0c'

/-- `l` with its leading and trailing characters satisfying `p` removed:
the common core of Python `str.strip` / `str.strip(chars)`. -/
def stripWith (p : Char → Bool) (l : Str) : Str :=
  ((l.dropWhile p).reverse.dropWhile p).reverse

/-- Python `str.strip()` (no argument). -/
def strip (l : Str) : Str := stripWith isSpace l

/-- Python `str.lstrip(chars)` restricted to a character predicate. -/
def lstripWith (p : Char → Bool) (l : Str) : Str := l.dropWhile p

/-- `html.escape` on a single character (quote=True: `&`, `<`, `>`,
double quote and single quote are replaced). -/
def escChar (c : Char) : Str :=
  if c = '&' then "&amp;".data
  else if c = '<' then "&lt;".data
  else if c = '>' then "&gt;".data
  else if c = '"' then "&quot;".data
  else if c = '\x27' then "&#x27;".data
  else [c]

/-- Python `html.escape` (quote=True), the form used by every render
function in the repository. -/
def escape : Str → Str
  | [] => []
  | c :: cs => escChar c ++ escape cs

/-- Number of double-quote characters in a string: the observable used
to state that escaped fields cannot inject a raw quote into markup. -/
def countQ (l : Str) : Nat := l.count '"'

/-- The decimal digit characters, used to model Python `str(int)`. -/
def digitChar : Nat → Char
  | 0 => '0' | 1 => '1' | 2 => '2' | 3 => '3' | 4 => '4'
  | 5 => '5' | 6 => '6' | 7 => '7' | 8 => '8' | _ => '9'

/-- Python decimal rendering of a non-negative integer, as produced by
`str(...)` / f-string interpolation of an `int`. -/
def decStr (n : Nat) : Str :=
  if h : n < 10 then [digitChar n]
  else decStr (n / 10) ++ [digitChar (n % 10)]
  decreasing_by exact Nat.div_lt_self (by omega) (by omega)

/-- Decimal value of a digit character. -/
def digitVal (c : Char) : Nat := c.toNat - 48

/-- Decimal value of a digit string (model of `int(...)` on an all-digit
string). -/
def decVal (l : Str) : Nat := l.foldl (fun a c => 10 * a + digitVal c) 0

theorem digitVal_digitChar {d : Nat} (h : d < 10) : digitVal (digitChar d) = d := by
  interval_cases d <;> rfl

theorem decVal_append_digit (l : Str) (c : Char) :
    decVal (l ++ [c]) = 10 * decVal l + digitVal c := by
  have h : ∀ (a : Nat), (l ++ [c]).foldl (fun a c => 10 * a + digitVal c) a =
      10 * l.foldl (fun a c => 10 * a + digitVal c) a + digitVal c := by
    intro a
    simp [List.foldl_append]
  simpa [decVal] using h 0

/-- `decStr` round-trips through `decVal`: decimal rendering is faithful. -/
theorem decVal_decStr (n : Nat) : decVal (decStr n) = n := by
  induction n using Nat.strong_induction_on with
  | _ n ih =>
    by_cases h : n < 10
    · rw [decStr, dif_pos h]
      simp [decVal, digitVal_digitChar h]
    · rw [decStr, dif_neg h]
      rw [decVal_append_digit]
      rw [ih (n / 10) (Nat.div_lt_self (by omega) (by omega))]
      rw [digitVal_digitChar (Nat.mod_lt _ (by omega))]
      omega

/-- Decimal rendering is injective. -/
theorem decStr_injective : Function.Injective decStr := by
  intro a b h
  have := decVal_decStr a
  rw [h, decVal_decStr] at this
  omega

theorem decStr_mem_digits (n : Nat) : ∀ c ∈ decStr n, '0' ≤ c ∧ c ≤ '9' := by
  induction n using Nat.strong_induction_on with
  | _ n ih =>
    by_cases h : n < 10
    · rw [decStr, dif_pos h]
      intro c hc
      simp at hc
      subst hc
      interval_cases n <;> simp [digitChar] <;> decide
    · rw [decStr, dif_neg h]
      intro c hc
      rw [List.mem_append] at hc
      rcases hc with hc | hc
      · exact ih (n / 10) (Nat.div_lt_self (by omega) (by omega)) c hc
      · simp at hc
        subst hc
        have h10 := Nat.mod_lt n (show 0 < 10 by omega)
        set d := n % 10 with hd
        interval_cases d <;> simp [digitChar] <;> decide

/-- Python substring membership `pat in s`, as a Bool. -/
def containsSub (pat : Str) : Str → Bool
  | [] => pat.isPrefixOf []
  | c :: cs => pat.isPrefixOf (c :: cs) || containsSub pat cs

theorem containsSub_iff (pat : Str) : ∀ l, containsSub pat l = true ↔ pat <:+: l := by
  intro l
  induction l with
  | nil => simp [containsSub, List.isPrefixOf_iff_prefix, List.infix_iff_prefix_suffix]
  | cons c cs ih =>
    simp [containsSub, List.isPrefixOf_iff_prefix, ih, List.infix_cons_iff]

theorem length_dropWhile_le (p : Char → Bool) (l : Str) :
    (l.dropWhile p).length ≤ l.length := by
  induction l with
  | nil => simp [List.dropWhile]
  | cons c cs ih =>
    rw [List.dropWhile]
    split
    · exact Nat.le_trans ih (by simp)
    · simp

/-- Python truthiness of an optional string (`if x:` / `x or d`):
`None` and the empty string are falsy. -/
def truthy : Option Str → Bool
  | none => false
  | some s => !s.isEmpty

/-- Python `x or d` for an optional string `x`. -/
def pyOr (o : Option Str) (d : Str) : Str :=
  if truthy o then o.getD [] else d

/-- Python `s or None` applied to a string: empty becomes `None`. -/
def orNone (s : Str) : Option Str := if s = [] then none else some s

/-- Python truthiness of an optional int (`if n:`): `None` and `0` are falsy. -/
def truthyNat : Option Nat → Bool
  | none => false
  | some n => n != 0

/-- Python `sep.join(parts)`. -/
def joinSep (sep : Str) : List Str → Str
  | [] => []
  | [x] => x
  | x :: y :: rest => x ++ sep ++ joinSep sep (y :: rest)

/-- Python `s.replace(pat, "")` for a non-empty pattern `p :: ps`:
remove every (left-most, non-overlapping) occurrence. -/
def removeAllAux (p : Char) (ps : Str) : Str → Str
  | [] => []
  | c :: cs =>
    if (p :: ps).isPrefixOf (c :: cs) then removeAllAux p ps (cs.drop ps.length)
    else c :: removeAllAux p ps cs
  termination_by l => l.length
  decreasing_by
    · have := List.length_drop ps.length cs
      simp
      omega
    · simp

/-- Python `s.replace(pat, "")`. -/
def removeAll (pat : Str) (l : Str) : Str :=
  match pat with
  | [] => l
  | p :: ps => removeAllAux p ps l

/-- Python `str.lower()` on the ASCII range.  Every call site in the
sources applies it to a string already restricted to ASCII (either the
output of an ASCII-only regex class or of `.encode("ascii", "ignore")`),
where Python lower-casing is exactly the A-Z shift. -/
def lower (c : Char) : Char :=
  if 'A' ≤ c && c ≤ 'Z' then Char.ofNat (c.toNat + 32) else c

def lowerStr (l : Str) : Str := l.map lower

/-- Model of `re.sub(r"[^K]+", "-", s)` for a character class `K` (with
`'-' ∉ K`, true of every class used in the sources): map each character
outside `K` to a dash, then collapse dash runs to a single dash. -/
def dashColl : Str → Str
  | [] => []
  | [c] => [c]
  | c :: d :: rest =>
    if c = '-' && d = '-' then dashColl (d :: rest) else c :: dashColl (d :: rest)

def reSubDash (keep : Char → Bool) (l : Str) : Str :=
  dashColl (l.map (fun c => if keep c then c else '-'))

/-- A candidate slug carrying a numeric collision suffix,
`f"{base}-{suffix}"`. -/
def cand (base : Str) (suffix : Nat) : Str := base ++ '-' :: decStr suffix

/-- Recognizer for `cand base m` with `suffix ≤ m`; used only as the
termination measure of the collision loop. -/
def isCand (base : Str) (suffix : Nat) (s : Str) : Bool :=
  (base ++ ['-']).isPrefixOf s &&
    (let ds := s.drop (base.length + 1)
     !ds.isEmpty && decStr (decVal ds) == ds && decide (suffix ≤ decVal ds))

theorem decStr_ne_nil (n : Nat) : decStr n ≠ [] := by
  rw [decStr]
  split <;> simp

theorem cand_drop (base : Str) (suffix : Nat) :
    (cand base suffix).drop (base.length + 1) = decStr suffix := by
  have h : cand base suffix = (base ++ ['-']) ++ decStr suffix := by simp [cand]
  have hlen : (base ++ ['-']).length = base.length + 1 := by simp
  rw [h, ← hlen, List.drop_left]

theorem isCand_mono {base : Str} {suffix : Nat} {s : Str}
    (h : isCand base (suffix + 1) s = true) : isCand base suffix s = true := by
  simp only [isCand, Bool.and_eq_true, decide_eq_true_eq] at h ⊢
  obtain ⟨h1, ⟨h2, h3⟩, h4⟩ := h
  exact ⟨h1, ⟨h2, h3⟩, by omega⟩

theorem isCand_cand (base : Str) (suffix : Nat) : isCand base suffix (cand base suffix) = true := by
  simp only [isCand, cand_drop, Bool.and_eq_true, decide_eq_true_eq]
  refine ⟨?_, ⟨?_, ?_⟩, ?_⟩
  · rw [List.isPrefixOf_iff_prefix]
    exact ⟨decStr suffix, by simp [cand]⟩
  · simpa using decStr_ne_nil suffix
  · simp [decVal_decStr]
  · rw [decVal_decStr]

theorem isCand_succ_cand_false (base : Str) (suffix : Nat) :
    isCand base (suffix + 1) (cand base suffix) = false := by
  by_contra h
  rw [Bool.not_eq_false] at h
  simp only [isCand, cand_drop, Bool.and_eq_true, decide_eq_true_eq] at h
  obtain ⟨-, -, h4⟩ := h
  rw [decVal_decStr] at h4
  omega

theorem filter_length_lt_of_mem {α : Type} {x : α} {l : List α} {p q : α → Bool}
    (hx : x ∈ l) (hpx : p x = true) (hqx : q x = false)
    (imp : ∀ y, q y = true → p y = true) :
    (l.filter q).length < (l.filter p).length := by
  have mono : ∀ (t : List α), (t.filter q).length ≤ (t.filter p).length := by
    intro t
    induction t with
    | nil => simp
    | cons a t ih =>
      by_cases hq : q a = true
      · rw [List.filter_cons_of_pos hq, List.filter_cons_of_pos (imp a hq)]
        simpa using ih
      · rw [List.filter_cons_of_neg (by simpa using hq)]
        by_cases hp : p a = true
        · rw [List.filter_cons_of_pos hp]
          simp
          omega
        · rw [List.filter_cons_of_neg (by simpa using hp)]
          exact ih
  induction l with
  | nil => cases hx
  | cons a t ih =>
    rcases List.mem_cons.mp hx with rfl | hxt
    · rw [List.filter_cons_of_neg (by simp [hqx]), List.filter_cons_of_pos hpx]
      simp
      exact Nat.lt_succ_of_le (mono t)
    · by_cases hq : q a = true
      · rw [List.filter_cons_of_pos hq, List.filter_cons_of_pos (imp a hq)]
        simpa using ih hxt
      · rw [List.filter_cons_of_neg (by simpa using hq)]
        by_cases hp : p a = true
        · rw [List.filter_cons_of_pos hp]
          exact Nat.lt_succ_of_lt (ih hxt)
        · rw [List.filter_cons_of_neg (by simpa using hp)]
          exact ih hxt

/-- The collision loop shared by all three slug allocators:
`while candidate in existing: candidate = f"{base}-{suffix}"; suffix += 1`,
entered after the bare base has already collided. -/
def suffixLoop (base : Str) (existing : List Str) (suffix : Nat) : Str :=
  if cand base suffix ∈ existing then suffixLoop base existing (suffix + 1)
  else cand base suffix
  termination_by (existing.filter (isCand base suffix)).length
  decreasing_by
    exact filter_length_lt_of_mem (by assumption) (isCand_cand base suffix)
      (isCand_succ_cand_false base suffix) (fun y => isCand_mono)

/-- The allocation step shared by all three variants: take the bare base
if it is free, otherwise run the suffix loop starting at 2. -/
def allocSlug (base : Str) (existing : List Str) : Str :=
  if base ∈ existing then suffixLoop base existing 2 else base

theorem suffixLoop_not_mem (base : Str) (existing : List Str) (suffix : Nat) :
    suffixLoop base existing suffix ∉ existing := by
  induction suffix using suffixLoop.induct base existing with
  | case1 suffix hmem ih =>
    rw [suffixLoop, if_pos hmem]
    exact ih
  | case2 suffix hmem =>
    rw [suffixLoop, if_neg hmem]
    exact hmem

/-- The allocated slug is never one already recorded in the visited set. -/
theorem allocSlug_not_mem (base : Str) (existing : List Str) :
    allocSlug base existing ∉ existing := by
  rw [allocSlug]
  split
  · exact suffixLoop_not_mem base existing 2
  · assumption

/-- The suffix loop returns the first free suffixed candidate: every
suffix from the start of the loop up to the returned one was taken. -/
theorem suffixLoop_least (base : Str) (existing : List Str) (suffix : Nat) :
    ∃ k, suffix ≤ k ∧ suffixLoop base existing suffix = cand base k ∧
      cand base k ∉ existing ∧
      ∀ m, suffix ≤ m → m < k → cand base m ∈ existing := by
  induction suffix using suffixLoop.induct base existing with
  | case1 suffix hmem ih =>
    obtain ⟨k, hk1, hk2, hk3, hk4⟩ := ih
    refine ⟨k, by omega, ?_, hk3, ?_⟩
    · rw [suffixLoop, if_pos hmem]
      exact hk2
    · intro m hm1 hm2
      rcases Nat.eq_or_lt_of_le hm1 with rfl | hlt
      · exact hmem
      · exact hk4 m hlt hm2
  | case2 suffix hmem =>
    exact ⟨suffix, Nat.le_refl _, by rw [suffixLoop, if_neg hmem], hmem, by omega⟩

end Py

/-- Modelled from the spec: the parsers call Python `str.isalnum` and
`unicodedata.category`, i.e. the Unicode character database, which is not
part of src/.  General theorems are stated for an arbitrary model; the
sample below gives the true values on the ASCII and CJK characters used
by the concrete inputs in this file. -/
structure UniModel where
  isalnum : Char → Bool
  catS : Char → Bool

/-- Sample Unicode model: ASCII letters/digits and CJK ideographs are
alphanumeric; of the ASCII characters, exactly the math/modifier/currency
symbols have a category starting with `S`. -/
def ucdSample : UniModel where
  isalnum c := c.isAlpha || c.isDigit || ('一' ≤ c && c ≤ '鿿')
  catS c := c ∈ ['$', '+', '<', '=', '>', '^', '|', '~']

namespace BuildSites

/-!  Embedding of `src/build_sites.py`.  That file is stored with
mojibake (UTF-8 read as cp1252 and re-encoded), so its string literals
are the mojibake character sequences reproduced below with `\u` escapes;
the embedding keeps them exactly as Python sees them. -/

/-- The two characters of the literal passed to `.strip("Â·")` in
`clean_feature` (line 463). -/
def stripBulletChar (c : Char) : Bool := c = 'Â' || c = '·'

/-- The advertising-marker literal of `clean_feature` (line 468),
the mojibake spelling of the ad marker. -/
def adMarker : Str := "å»£å‘Š".data

/-- The blank-name placeholder prefix of `parse_businesses` (line 487). -/
def namePlaceholder : Str := "æœªå‘½ååº—å®¶ ".data

/-- The literal tested by `status_class` (line 443). -/
def mojiOpenWord : Str := "ç‡Ÿæ¥­".data

/-- The star glyph of `formatted_rating` (line 451). -/
def starStr : Str := "â˜…".data

/-- The opening of the review-count suffix of `formatted_rating`. -/
def reviewOpen : Str := "ï¼ˆ".data

/-- The closing of the review-count suffix of `formatted_rating`. -/
def reviewClose : Str := " å‰‡è©•è«–ï¼‰".data

/-- The fallback card image URL of `render_card` (line 626). -/
def placeholderImage : Str := "https://via.placeholder.com/400x250?text=Plumbing".data

/-- The default status text of `render_card` / `build_detail_page`. -/
def statusDefault : Str := "ç‡Ÿæ¥­è³‡è¨Šæœªæä¾›".data

/-- The `Business` dataclass.  The rating is a Python float; floats are
kept abstract as a type parameter `α` (no claim depends on float
arithmetic), together with the parsing/formatting/rounding functions
that touch them. -/
structure Business (α : Type) where
  slug : Str
  name : Str
  map_url : Str
  rating : Option α
  review_count : Option Nat
  category : Str
  address : Str
  status : Option Str
  hours : Option Str
  phone : Option Str
  image_url : Option Str
  features : List Str

/-- `Business.status_class`. -/
def status_class (status : Option Str) : Str :=
  if !Py.truthy status then "neutral".data
  else if Py.containsSub "24".data (status.getD []) then "open-24".data
  else if Py.containsSub mojiOpenWord (status.getD []) then []
  else "neutral".data

/-- `Business.formatted_rating`.  `fmt` models `f"{r:.1f}"` and `rnd`
models Python `round` on the abstract float type. -/
def formatted_rating {α : Type} (fmt : α → Str) (rnd : α → Nat) (b : Business α) : Str :=
  match b.rating with
  | none => "--".data
  | some r =>
    let stars := (List.replicate (rnd r) starStr).flatten
    let reviews :=
      if Py.truthyNat b.review_count then
        reviewOpen ++ Py.decStr (b.review_count.getD 0) ++ reviewClose
      else []
    Py.strip (fmt r ++ " ".data ++ stars ++ " ".data ++ reviews)

/-- `slugify` (build variant): keep ASCII alphanumerics and CJK
ideographs, no lower-casing, no Unicode normalization. -/
def keepChar (c : Char) : Bool :=
  ('0' ≤ c && c ≤ '9') || ('A' ≤ c && c ≤ 'Z') || ('a' ≤ c && c ≤ 'z') ||
    ('一' ≤ c && c ≤ '鿿')

def slugify (name : Str) (fallback_index : Nat) : Str :=
  let base := Py.stripWith (fun c => c = '-') (Py.reSubDash keepChar name)
  if base = [] then "business-".data ++ Py.decStr fallback_index else base

/-- `clean_feature`. -/
def clean_feature (u : UniModel) (cell : Str) : Option Str :=
  let text := Py.strip (Py.stripWith stripBulletChar (Py.strip cell))
  if text = [] then none
  else if "http".data.isPrefixOf text then none
  else if Py.containsSub adMarker text then none
  else if decide (text.length ≤ 2) &&
      text.all (fun ch => !(u.isalnum ch || ('一' ≤ ch && ch ≤ '鿿'))) then none
  else if text.all u.catS then none
  else some text

/-- The feature-collection loop of `parse_businesses`:
`if cleaned and cleaned not in features: features.append(cleaned)`. -/
def collectFeatures (u : UniModel) : List Str → List Str → List Str
  | [], acc => acc
  | cell :: rest, acc =>
    match clean_feature u cell with
    | none => collectFeatures u rest acc
    | some f =>
      if f ≠ [] ∧ f ∉ acc then collectFeatures u rest (acc ++ [f])
      else collectFeatures u rest acc

/-- One `Business` built from one CSV row (the body of the row loop of
`parse_businesses`), given the set of already-allocated slugs. -/
def mkBusiness {α : Type} (u : UniModel) (pyFloat : Str → Option α)
    (row : List Str) (idx : Nat) (seen : List Str) : Business α :=
  let name := let n := Py.strip (row.getD 1 []); if n = [] then namePlaceholder ++ Py.decStr idx else n
  let slug := Py.allocSlug (slugify name idx) seen
  let rating := if Py.strip (row.getD 2 []) = [] then none else pyFloat (row.getD 2 [])
  let review_text := Py.strip (row.getD 3 [])
  let review_count :=
    if review_text = [] then none
    else
      let digits := review_text.filter Char.isDigit
      if digits = [] then none else some (Py.decVal digits)
  let hours_text := Py.strip (Py.removeAll "Â·".data (row.getD 7 []))
  { slug := slug
    name := name
    map_url := Py.strip (row.getD 0 [])
    rating := rating
    review_count := review_count
    category := Py.strip (row.getD 4 [])
    address := Py.strip (row.getD 5 [])
    status := Py.orNone (Py.strip (row.getD 6 []))
    hours := Py.orNone hours_text
    phone := Py.orNone (Py.strip (row.getD 9 []))
    image_url := Py.orNone (Py.strip (row.getD 10 []))
    features := collectFeatures u (row.drop 11) [] }

/-- The row loop of `parse_businesses`: rows with fewer than 10 cells are
skipped, the row index (`enumerate(reader, start=1)`) advances for every
row, and each allocated slug is recorded in the visited set. -/
def parseRows {α : Type} (u : UniModel) (pyFloat : Str → Option α) :
    List (List Str) → Nat → List Str → List (Business α)
  | [], _, _ => []
  | row :: rest, idx, seen =>
    if row.length < 10 then parseRows u pyFloat rest (idx + 1) seen
    else
      let b := mkBusiness u pyFloat row idx seen
      b :: parseRows u pyFloat rest (idx + 1) (seen ++ [b.slug])

/-- `parse_businesses`, starting from row index 1 and an empty slug set. -/
def parse_businesses {α : Type} (u : UniModel) (pyFloat : Str → Option α)
    (rows : List (List Str)) : List (Business α) :=
  parseRows u pyFloat rows 1 []

/-- The chip fragment of `render_card` (line 616). -/
def chip (f : Str) : Str :=
  "<span class=\"chip\">".data ++ Py.escape f ++ "</span>".data

/-- The phone action of `render_card` (line 624). -/
def telAnchor (p : Str) : Str :=
  "<a class=\"button-call\" href=\"tel:".data ++ Py.escape p ++
    "\">é›»è©±è¯çµ¡</a>".data

/-- `render_card` (lines 613-629). -/
def render_card {α : Type} (fmt : α → Str) (rnd : α → Nat) (b : Business α) : Str :=
  let features_preview := b.features.take 4
  let feature_chips := Py.joinSep [] (features_preview.map chip)
  let status_text := Py.escape (Py.pyOr b.status statusDefault)
  let status_cls := status_class b.status
  let rating_text := Py.escape (formatted_rating fmt rnd b)
  let category := Py.escape b.category
  let address := Py.escape b.address
  let name := Py.escape b.name
  let phone_link := if Py.truthy b.phone then telAnchor (b.phone.getD []) else []
  let image_tag :=
    "<img src=\"".data ++ Py.escape (Py.pyOr b.image_url placeholderImage) ++
      "\" alt=\"".data ++ name ++ "\" loading=\"lazy\" />".data
  "<article class=\"card\" data-name=\"".data ++ name ++
    "\" data-category=\"".data ++ category ++
    "\" data-address=\"".data ++ address ++
    "\" data-features=\"".data ++ Py.escape (Py.joinSep " ".data b.features) ++
    "\" data-status=\"".data ++ Py.escape (Py.pyOr b.status []) ++
    "\">\n  ".data ++ image_tag ++
    "\n  <div class=\"card-body\">\n    <div class=\"card-header\">\n      <span class=\"status ".data ++
    status_cls ++ "\">".data ++ status_text ++
    "</span>\n      <span class=\"rating\">".data ++ rating_text ++
    "</span>\n    </div>\n    <h2>".data ++ name ++
    "</h2>\n    <p class=\"meta\">".data ++ category ++
    "</p>\n    <p class=\"address\">".data ++ address ++
    "</p>\n    <div class=\"chips\">".data ++ feature_chips ++
    "</div>\n    <div class=\"actions\">\n      <a class=\"button\" href=\"./businesses/".data ++
    b.slug ++
    "/index.html\">æŸ¥çœ‹å°ˆå±¬é </a>\n      <a class=\"button-ghost\" href=\"".data ++
    Py.escape b.map_url ++
    "\" target=\"_blank\" rel=\"noreferrer\">Google åœ°åœ–</a>\n      ".data ++
    phone_link ++
    "\n    </div>\n  </div>\n</article>".data

/-- One `<option>` line of the status / category filter in
`build_index_page` (lines 550-555). -/
def optionLine (v : Str) : Str :=
  "<option value=\"".data ++ Py.escape v ++ "\">".data ++ Py.escape v ++ "</option>".data

/-- The distinct non-empty categories, `{b.category for b in businesses if b.category}`,
as a deduplicated list in first-occurrence order (one canonical
enumeration of the Python set). -/
def distinctCategories {α : Type} (bs : List (Business α)) : List Str :=
  ((bs.map Business.category).filter (fun c => c ≠ [])).dedup

/-- The distinct truthy statuses, `{b.status for b in businesses if b.status}`. -/
def distinctStatuses {α : Type} (bs : List (Business α)) : List Str :=
  ((bs.filterMap Business.status).filter (fun s => s ≠ [])).dedup

/-- Python `sorted` on strings (code-point lexicographic). -/
def pySorted (l : List Str) : List Str :=
  ((l.map (fun s => String.mk s)).mergeSort (· ≤ ·)).map String.data

/-- `build_index_page` (lines 545-610).  Python iterates the two sets in
an unspecified order before sorting; the enumerations are therefore
passed as explicit parameters `catEnum`/`statEnum`, constrained in the
determinism theorem to be permutations of the distinct values. -/
def build_index_page {α : Type} (fmt : α → Str) (rnd : α → Nat)
    (bs : List (Business α)) (catEnum statEnum : List Str) : Str :=
  let categories := pySorted catEnum
  let statuses := pySorted statEnum
  let cards := Py.joinSep "\n".data (bs.map (render_card fmt rnd))
  let status_options := Py.joinSep "\n".data (statuses.map optionLine)
  let category_options := Py.joinSep "\n".data (categories.map optionLine)
  "<!DOCTYPE html>\n<html lang=\"zh-Hant\">\n<head>\n  <meta charset=\"UTF-8\" />\n  <meta name=\"viewport\" content=\"width=device-width, initial-scale=1\" />\n  <title>æ°´é›»è¡Œç¨ç«‹ç¶²ç«™ç¸½è¦½</title>\n  <link rel=\"stylesheet\" href=\"./assets/style.css\" />\n</head>\n<body>\n  <header>\n    <div class=\"header-top\">\n      <div>\n        <p class=\"tagline\">GitHub Pages è‡ªå‹•ç”Ÿæˆ Â· ".data ++
    Py.decStr bs.length ++
    " å®¶åº—å®¶ä¸€æ¬¡æ•´ç†</p>\n        <h1 class=\"title\">å°ä¸­æ°´é›»è¡Œç¨ç«‹ç¶²ç«™ç¸½è¦½</h1>\n        <p class=\"subtitle\">é»æ“Šå¡ç‰‡å¯ä»¥å‰å¾€æ¯ä¸€é–“æ°´é›»è¡Œçš„å°ˆå±¬é é¢ï¼Œæˆ–ç›´æ¥é–‹å•Ÿ Google åœ°åœ–å°èˆªã€‚</p>\n      </div>\n      <div class=\"stat-card\">\n        <div>ç›®å‰ç¶²ç«™æ•¸é‡</div>\n        <strong data-visible-count>".data ++
    Py.decStr bs.length ++
    "</strong>\n      </div>\n    </div>\n  </header>\n\n  <main>\n    <section class=\"filter-bar\">\n      <div class=\"filter-group\">\n        <label for=\"search\">æœå°‹åº—åã€åœ°å€æˆ–æœå‹™</label>\n        <input id=\"search\" type=\"search\" placeholder=\"è¼¸å…¥é—œéµå­—\" />\n      </div>\n      <div class=\"filter-group\">\n        <label for=\"status-filter\">ç‡Ÿæ¥­ç‹€æ…‹</label>\n        <select id=\"status-filter\">\n          <option value=\"\">å…¨éƒ¨</option>\n          ".data ++
    status_options ++
    "\n        </select>\n      </div>\n      <div class=\"filter-group\">\n        <label for=\"category-filter\">æœå‹™é¡å‹</label>\n        <select id=\"category-filter\">\n          <option value=\"\">å…¨éƒ¨</option>\n          ".data ++
    category_options ++
    "\n        </select>\n      </div>\n    </section>\n\n    <section class=\"grid\">\n      ".data ++
    cards ++
    "\n    </section>\n  </main>\n  <script src=\"./assets/main.js\"></script>\n</body>\n</html>\n".data

end BuildSites

namespace GenSites

/-!  Embedding of `src/generate_sites.py` (stored as ordinary UTF-8). -/

/-- `PLACEHOLDER_IMAGE`. -/
def PLACEHOLDER_IMAGE : Str := "https://placehold.co/800x500?text=Plumbing+Service".data

/-- The advertising marker tested by `collect_highlights` (line 83). -/
def adMarker : Str := "贊助商廣告".data

/-- The `Shop` dataclass; as in `BuildSites.Business`, the float rating
is kept abstract as `α`. -/
structure Shop (α : Type) where
  slug : Str
  name : Str
  map_url : Str
  rating : Option α
  review_count : Option Nat
  category : Option Str
  address : Option Str
  status : Option Str
  hours : Option Str
  phone : Option Str
  image_url : Option Str
  highlights : List Str
  sponsored : Bool

/-- The character class kept by `slugify`: `[^a-zA-Z0-9]+` is replaced. -/
def keepAscii (c : Char) : Bool :=
  ('a' ≤ c && c ≤ 'z') || ('A' ≤ c && c ≤ 'Z') || ('0' ≤ c && c ≤ '9')

/-- `slugify` (generate variant): NFKD-normalize (the normalization from
`unicodedata`, outside src/, is a parameter `nfkd`; it is the identity on
ASCII input), keep ASCII alphanumerics, lower-case, fall back to
`shop-{i+1}`, then resolve collisions starting at suffix 2.  The Python
function also adds the result to `existing`; callers of this embedding
extend the set explicitly. -/
def slugify (nfkd : Str → Str) (name : Str) (fallback_index : Nat) (existing : List Str) : Str :=
  let normalized := nfkd name
  let ascii_slug := Py.lowerStr (Py.stripWith (fun c => c = '-') (Py.reSubDash keepAscii normalized))
  let base := if ascii_slug = [] then "shop-".data ++ Py.decStr (fallback_index + 1) else ascii_slug
  Py.allocSlug base existing

/-- `parse_reviews`: strip the surrounding parentheses, drop commas, and
parse as an integer (modelled as: all-digit and non-empty, else `None`). -/
def parse_reviews (value : Str) : Option Nat :=
  if value = [] then none
  else
    let cleaned := Py.stripWith (fun c => c = '(' || c = ')') (Py.strip value)
    let arg := cleaned.filter (fun c => c ≠ ',')
    if arg ≠ [] ∧ arg.all Char.isDigit then some (Py.decVal arg) else none

/-- `tidy`: `None`/empty in, or empty after cleaning, gives `None`. -/
def tidy (s : Str) : Option Str :=
  if s = [] then none
  else
    let cleaned := Py.strip ((Py.strip s).dropWhile (fun c => c = '·'))
    if cleaned = [] then none else some cleaned

/-- The loop body of `collect_highlights`. -/
def collectGo : List Str → List Str → Bool → List Str × Bool
  | [], acc, sp => (acc, sp)
  | v :: rest, acc, sp =>
    match tidy v with
    | none => collectGo rest acc sp
    | some cleaned =>
      if cleaned = "·".data then collectGo rest acc sp
      else if Py.containsSub adMarker cleaned then collectGo rest acc true
      else if cleaned ∉ acc then collectGo rest (acc ++ [cleaned]) sp
      else collectGo rest acc sp

/-- `collect_highlights`. -/
def collect_highlights (raws : List Str) : List Str × Bool :=
  collectGo raws [] false

/-- One `Shop` from one CSV row (the loop body of `build_shops`).
`row[0]` is read unguarded in the source (an empty row would raise);
the embedding totalizes it with an empty default. -/
def mkShop {α : Type} (nfkd : Str → Str) (pyFloat : Str → Option α)
    (row : List Str) (index : Nat) (used : List Str) : Shop α :=
  let name :=
    if row.length > 1 ∧ Py.strip (row.getD 1 []) ≠ [] then Py.strip (row.getD 1 [])
    else "未命名店家-".data ++ Py.decStr (index + 1)
  let slug := slugify nfkd name index used
  let hl := collect_highlights (row.drop 11)
  { slug := slug
    name := name
    map_url := match tidy (row.getD 0 []) with | some s => s | none => "#".data
    rating := if row.length > 2 then pyFloat (row.getD 2 []) else none
    review_count := if row.length > 3 then parse_reviews (row.getD 3 []) else none
    category := if row.length > 4 then tidy (row.getD 4 []) else none
    address := if row.length > 5 then tidy (row.getD 5 []) else none
    status := if row.length > 6 then tidy (row.getD 6 []) else none
    hours := if row.length > 7 then tidy (row.getD 7 []) else none
    phone := if row.length > 9 then tidy (row.getD 9 []) else none
    image_url := if row.length > 10 then tidy (row.getD 10 []) else none
    highlights := hl.1
    sponsored := hl.2 }

/-- The row loop of `build_shops` (`enumerate(reader)` starts at 0). -/
def buildShopsGo {α : Type} (nfkd : Str → Str) (pyFloat : Str → Option α) :
    List (List Str) → Nat → List Str → List (Shop α)
  | [], _, _ => []
  | row :: rest, index, used =>
    let s := mkShop nfkd pyFloat row index used
    s :: buildShopsGo nfkd pyFloat rest (index + 1) (used ++ [s.slug])

/-- `build_shops`. -/
def build_shops {α : Type} (nfkd : Str → Str) (pyFloat : Str → Option α)
    (rows : List (List Str)) : List (Shop α) :=
  buildShopsGo nfkd pyFloat rows 0 []

/-- One badge span, shared by `render_badges` and `render_tags`. -/
def badge (t : Str) : Str :=
  "<span class=\"badge\">".data ++ Py.escape t ++ "</span>".data

/-- `render_badges`. -/
def render_badges {α : Type} (shop : Shop α) : Str :=
  let badges : List Str :=
    (if Py.truthy shop.category then [badge (shop.category.getD [])] else []) ++
    (if Py.truthy shop.status then [badge (shop.status.getD [])] else []) ++
    (if Py.truthy shop.hours then [badge (shop.hours.getD [])] else []) ++
    (if shop.sponsored then ["<span class=\"badge\">贊助商</span>".data] else [])
  Py.joinSep "\n        ".data badges

/-- `render_tags`. -/
def render_tags {α : Type} (shop : Shop α) (limit : Option Nat) : Str :=
  let tags := match limit with | none => shop.highlights | some n => shop.highlights.take n
  if tags = [] then []
  else "<div class=\"tag-row\">".data ++ Py.joinSep [] (tags.map badge) ++ "</div>".data

/-- `render_card` (lines 378-402). -/
def render_card {α : Type} (fmt : α → Str) (shop : Shop α) : Str :=
  let rating := match shop.rating with
    | some r => "⭐ ".data ++ fmt r
    | none => "尚無評分".data
  let reviews := match shop.review_count with
    | some n => Py.decStr n ++ " 則評論".data
    | none => "評論數未知".data
  let badges := render_badges shop
  let tags := render_tags shop (some 3)
  let phone_label := if Py.truthy shop.phone then Py.escape (shop.phone.getD []) else "尚無電話".data
  let image := Py.pyOr shop.image_url PLACEHOLDER_IMAGE
  "\n<article class=\"card\">\n  <img src=\"".data ++ Py.escape image ++
    "\" alt=\"".data ++ Py.escape shop.name ++
    "\"> \n  <div class=\"card__body\">\n    <h2 class=\"name\">".data ++ Py.escape shop.name ++
    "</h2>\n    <div class=\"meta\">".data ++ rating ++ " · ".data ++ reviews ++
    "</div>\n    <div class=\"meta\">".data ++ Py.escape (Py.pyOr shop.address "地址未提供".data) ++
    "</div>\n    <div class=\"tag-row\">".data ++ badges ++
    "</div>\n    ".data ++ tags ++
    "\n    <div class=\"actions\">\n      <a class=\"button\" href=\"shops/".data ++ shop.slug ++
    "/index.html\">查看店家頁面</a>\n      <a class=\"button secondary\" href=\"".data ++
    Py.escape shop.map_url ++
    "\" target=\"_blank\" rel=\"noopener\">Google 地圖</a>\n    </div>\n    <div class=\"meta\">☎ ".data ++
    phone_label ++
    "</div>\n  </div>\n</article>\n".data

/-- The phone action of `write_shop_page` (line 455): note the raw,
unescaped `phone_link` inside the href. -/
def telAction (phone_link : Str) : Str :=
  "<a class=\"button\" href=\"".data ++ phone_link ++ "\">立即撥打</a>".data

/-- The map action of `write_shop_page` (line 457). -/
def mapAction (map_url : Str) : Str :=
  "<a class=\"button secondary\" href=\"".data ++ Py.escape map_url ++
    "\" target=\"_blank\" rel=\"noopener\">在 Google 地圖開啟</a>".data

/-- `write_shop_page` (lines 441-505): the page body written for one shop.
`phone_link = f"tel:{shop.phone}"` interpolates the phone without
escaping. -/
def write_shop_page {α : Type} (fmt : α → Str) (shop : Shop α) : Str :=
  let badges := render_badges shop
  let tags := render_tags shop none
  let rating := match shop.rating with
    | some r => "⭐ ".data ++ fmt r
    | none => "尚無評分".data
  let reviews := match shop.review_count with
    | some n => Py.decStr n ++ " 則評論".data
    | none => "評論數未知".data
  let phone_link : Option Str :=
    if Py.truthy shop.phone then some ("tel:".data ++ shop.phone.getD []) else none
  let phone_label := if Py.truthy shop.phone then Py.escape (shop.phone.getD []) else "尚無電話資訊".data
  let image := Py.pyOr shop.image_url PLACEHOLDER_IMAGE
  let category_chip :=
    if Py.truthy shop.category then
      "<span class=\"pill\">".data ++ Py.escape (shop.category.getD []) ++ "</span>".data
    else []
  let actions : List Str :=
    (match phone_link with | some pl => [telAction pl] | none => []) ++ [mapAction shop.map_url]
  let action_block := Py.joinSep "\n        ".data actions
  let highlight_block := if tags = [] then "<p class=\"meta\">尚無特色資料</p>".data else tags
  "<!DOCTYPE html>\n<html lang=\"zh-Hant\">\n<head>\n  <meta charset=\"UTF-8\">\n  <meta name=\"viewport\" content=\"width=device-width, initial-scale=1\">\n  <title>".data ++
    Py.escape shop.name ++
    " | 台中水電行</title>\n  <link rel=\"stylesheet\" href=\"../assets/styles.css\">\n</head>\n<body class=\"page\">\n  <header class=\"hero\">\n    <div class=\"hero__content\">\n      <p class=\"pill\">獨立店家頁面</p>\n      <h1 class=\"hero__title\">".data ++
    Py.escape shop.name ++
    "</h1>\n      <p class=\"hero__subtitle\">".data ++
    Py.escape (Py.pyOr shop.address "尚無地址資料".data) ++
    "</p>\n      <div class=\"hero__stats\">\n        <span class=\"pill\">".data ++ rating ++
    "</span>\n        <span class=\"pill\">".data ++ reviews ++
    "</span>\n        ".data ++ category_chip ++
    "\n      </div>\n    </div>\n  </header>\n  <main class=\"content\">\n    <div class=\"detail-header\">\n      <img src=\"".data ++
    Py.escape image ++
    "\" alt=\"".data ++ Py.escape shop.name ++
    "\">\n      <div class=\"detail-body\">\n        <h2 class=\"name\">".data ++ Py.escape shop.name ++
    "</h2>\n        <div class=\"meta\">".data ++
    Py.escape (Py.pyOr shop.status "營業資訊未提供".data) ++
    "</div>\n        <div class=\"tag-row\">".data ++ badges ++
    "</div>\n        <div class=\"stat-line\">📍 ".data ++
    Py.escape (Py.pyOr shop.address "尚無地址".data) ++
    "</div>\n        <div class=\"stat-line\">☎ ".data ++ phone_label ++
    "</div>\n        <div class=\"stat-line\">🔗 <a href=\"".data ++
    Py.escape shop.map_url ++
    "\" target=\"_blank\" rel=\"noopener\">前往 Google 地圖</a></div>\n        <div class=\"actions\">".data ++
    action_block ++
    "</div>\n      </div>\n    </div>\n    <section style=\"margin-top:24px;\">\n      <h3>特色與服務</h3>\n      ".data ++
    highlight_block ++
    "\n    </section>\n    <p style=\"margin-top:18px;\"><a href=\"../index.html\">← 返回店家列表</a></p>\n  </main>\n  <footer class=\"footer\">由 CSV 資料自動產生，適用於 GitHub Pages。</footer>\n</body>\n</html>\n".data

end GenSites

namespace Scripts

/-!  Embedding of `src/scripts/generate_sites.py`.  This variant reads
CSV rows through `csv.DictReader`, so a row is modelled as an
association list from header name to cell text. -/

/-- A `DictReader` row. -/
abbrev Row := List (Str × Str)

/-- `_clean` on an optional cell (`row.get(key)` may give `None`):
remove every bullet character, then strip. -/
def _clean (value : Option Str) : Str :=
  match value with
  | none => []
  | some v => if v = [] then [] else Py.strip (v.filter (fun c => c ≠ '·'))

/-- `_collect`: the cleaned non-empty cells of the given keys, in key
order (no deduplication). -/
def _collect (row : Row) : List Str → List Str
  | [] => []
  | k :: ks =>
    let cleaned := _clean (row.lookup k)
    if cleaned ≠ [] then cleaned :: _collect row ks else _collect row ks

/-- The character class kept by `_slugify`: `[^a-z0-9]+` is replaced
(applied after lower-casing). -/
def keepLower (c : Char) : Bool :=
  ('a' ≤ c && c ≤ 'z') || ('0' ≤ c && c ≤ '9')

/-- `_slugify`: NFKD-normalize (parameter, identity on ASCII), drop
non-ASCII (`encode("ascii", "ignore")`), lower-case, keep `[a-z0-9]`,
fall back when empty, then resolve collisions starting at suffix 2. -/
def _slugify (nfkd : Str → Str) (name : Str) (existing : List Str) (fallback : Str) : Str :=
  let normalized := nfkd name
  let ascii_name := normalized.filter (fun c => c.toNat < 128)
  let slug := Py.stripWith (fun c => c = '-') (Py.reSubDash keepLower (Py.lowerStr ascii_name))
  let base := if slug = [] then fallback else slug
  Py.allocSlug base existing

/-- The `Store` dataclass (`rating`/`reviews` stay raw strings in this
variant). -/
structure Store where
  slug : Str
  name : Str
  map_url : Option Str
  rating : Option Str
  reviews : Str
  category : Option Str
  address : Option Str
  status : Option Str
  hours : Option Str
  phone : Option Str
  image_url : Option Str
  badges : List Str
  highlights : List Str
  ad_link : Option Str

/-- The badge keys passed to `_collect` in `_parse_stores`. -/
def badgeKeys : List Str :=
  ["ah5Ghc".data, "M4A5Cf".data, "ah5Ghc (2)".data, "M4A5Cf (2)".data, "ah5Ghc (3)".data]

/-- The highlight keys passed to `_collect` in `_parse_stores`. -/
def highlightKeys : List Str :=
  ["LDHnMb".data, "c2ePGf".data, "c2ePGf (2)".data, "c2ePGf (3)".data,
    "W4Efsd (7)".data, "doJOZc".data]

/-- One `Store` from one row (the loop body of `_parse_stores`;
`enumerate(reader, start=1)`). -/
def mkStore (nfkd : Str → Str) (row : Row) (index : Nat) (existing : List Str) : Store :=
  let name :=
    let n := Py.strip ((row.lookup "qBF1Pd".data).getD [])
    if n = [] then "未命名店家 ".data ++ Py.decStr index else n
  let slug := _slugify nfkd name existing ("store-".data ++ Py.decStr index)
  { slug := slug
    name := name
    map_url := Py.orNone (_clean (row.lookup "hfpxzc href".data))
    rating := Py.orNone (_clean (row.lookup "MW4etd".data))
    reviews := Py.stripWith (fun c => c = '(' || c = ')') (_clean (row.lookup "UY7F9".data))
    category := Py.orNone (_clean (row.lookup "W4Efsd".data))
    address := Py.orNone (_clean (row.lookup "W4Efsd (3)".data))
    status := Py.orNone (_clean (row.lookup "W4Efsd (4)".data))
    hours := Py.orNone (_clean (row.lookup "W4Efsd (5)".data))
    phone := Py.orNone (_clean (row.lookup "UsdlK".data))
    image_url := Py.orNone (_clean (row.lookup "FQ2IWe src".data))
    badges := _collect row badgeKeys
    highlights := _collect row highlightKeys
    ad_link := Py.orNone (_clean (row.lookup "bm892c href".data)) }

/-- The map button of `_render_store` (line 251). -/
def mapButton (u : Str) : Str :=
  "<a class=\"button secondary\" href=\"".data ++ Py.escape u ++
    "\" target=\"_blank\" rel=\"noopener\">在 Google 地圖查看</a>".data

/-- The phone button of `_render_store` (line 257); both occurrences of
the phone are escaped in this variant. -/
def phoneButton (p : Str) : Str :=
  "<a class=\"button primary\" href=\"tel:".data ++ Py.escape p ++
    "\">撥打 ".data ++ Py.escape p ++ "</a>".data

/-- The ad-link button of `_render_store` (line 263). -/
def adButton (u : Str) : Str :=
  "<a class=\"button tertiary\" href=\"".data ++ Py.escape u ++
    "\" target=\"_blank\" rel=\"noopener\">造訪網站</a>".data

/-- `_render_store` (lines 247-350): the detail page of one store,
built by `string.Template.substitute` with every field escaped. -/
def _render_store (store : Store) : Str :=
  let badges := Py.joinSep [] (store.badges.map (fun b =>
    "<span class=\"badge\">".data ++ Py.escape b ++ "</span>".data))
  let highlights := Py.joinSep [] (store.highlights.map (fun t =>
    "<li>".data ++ Py.escape t ++ "</li>".data))
  let map_button := if Py.truthy store.map_url then mapButton (store.map_url.getD []) else []
  let phone_link := if Py.truthy store.phone then phoneButton (store.phone.getD []) else []
  let ad_link := if Py.truthy store.ad_link then adButton (store.ad_link.getD []) else []
  let title := Py.escape store.name
  let address := Py.escape (Py.pyOr store.address "未提供地址".data)
  let highlight_block :=
    if highlights ≠ [] then
      "<ul class=\"highlight-list\">".data ++ highlights ++ "</ul>".data
    else "<p>尚無補充描述。</p>".data
  let map_link :=
    if Py.truthy store.map_url then
      "<a href=\"".data ++ Py.escape (store.map_url.getD []) ++
        "\" target=\"_blank\" rel=\"noopener\">前往</a>".data
    else "未提供".data
  let ad_link_short :=
    if Py.truthy store.ad_link then
      "<a href=\"".data ++ Py.escape (store.ad_link.getD []) ++
        "\" target=\"_blank\" rel=\"noopener\">造訪</a>".data
    else "未提供".data
  "\n<!doctype html>\n<html lang=\"zh-Hant\">\n<head>\n    <meta charset=\"utf-8\">\n    <meta name=\"viewport\" content=\"width=device-width, initial-scale=1\">\n    <title>".data ++
    title ++
    " | 水電行介紹</title>\n    <link rel=\"stylesheet\" href=\"../assets/styles.css\">\n</head>\n<body>\n    <nav class=\"top-bar\">\n        <a href=\"../index.html\" class=\"back-link\">← 返回列表</a>\n        <span class=\"brand\">GitHub Pages</span>\n    </nav>\n    <header class=\"store-hero\">\n        <div class=\"store-hero__image\" style=\"background-image:url(\x27".data ++
    Py.escape (Py.pyOr store.image_url []) ++
    "\x27);\"></div>\n        <div class=\"store-hero__body\">\n            <p class=\"eyebrow\">".data ++
    Py.escape (Py.pyOr store.category "服務類別未提供".data) ++
    "</p>\n            <h1>".data ++ title ++
    "</h1>\n            <p class=\"lede\">".data ++ address ++
    "</p>\n            <div class=\"meta\">\n                <span>⭐ ".data ++
    Py.escape (Py.pyOr store.rating "無評分".data) ++
    "</span>\n                <span>".data ++
    Py.escape (if store.reviews = [] then "0".data else store.reviews) ++
    " 則評論</span>\n                <span>".data ++
    Py.escape (Py.pyOr store.status "營業資訊未提供".data) ++
    "</span>\n                <span>".data ++
    Py.escape (Py.pyOr store.hours []) ++
    "</span>\n            </div>\n            <div class=\"actions\">\n                ".data ++
    phone_link ++
    "\n                ".data ++ map_button ++
    "\n                ".data ++ ad_link ++
    "\n            </div>\n            <div class=\"badges\">".data ++ badges ++
    "</div>\n        </div>\n    </header>\n\n    <main class=\"content content--narrow\">\n        <section class=\"panel\">\n            <h2>店家重點</h2>\n            ".data ++
    highlight_block ++
    "\n        </section>\n        <section class=\"panel\">\n            <h2>聯絡資訊</h2>\n            <dl class=\"info\">\n                <div><dt>電話</dt><dd>".data ++
    Py.escape (Py.pyOr store.phone "未提供".data) ++
    "</dd></div>\n                <div><dt>地址</dt><dd>".data ++ address ++
    "</dd></div>\n                <div><dt>Google 地圖</dt><dd>".data ++ map_link ++
    "</dd></div>\n                <div><dt>廣告/官網</dt><dd>".data ++ ad_link_short ++
    "</dd></div>\n            </dl>\n        </section>\n    </main>\n</body>\n</html>\n".data

end Scripts

/-! ### Quote-counting lemmas

`html.escape` (quote=True) never lets a raw double quote through, so
replacing every `"` in an escaped field by `x` cannot change the number
of `"` characters of a rendered page.  An interpolation site that skips
the escape lets the count change.  These lemmas support the escaping
claims. -/

namespace Py

theorem countQ_append (a b : Str) : countQ (a ++ b) = countQ a + countQ b :=
  List.count_append ..

theorem countQ_escChar (c : Char) : countQ (escChar c) = 0 := by
  unfold escChar
  split_ifs with h1 h2 h3 h4 h5 <;> simp_all [countQ, List.count_cons]

theorem countQ_escape (l : Str) : countQ (escape l) = 0 := by
  induction l with
  | nil => rfl
  | cons c cs ih => rw [escape, countQ_append, countQ_escChar, ih]

/-- Replace each double quote by `x`: the field transformation of the
escaping claims.  It preserves emptiness, truthiness and length. -/
def replQC (c : Char) : Char := if c = '"' then 'x' else c

def replQ (l : Str) : Str := l.map replQC

def replQO (o : Option Str) : Option Str := o.map replQ

theorem replQ_isEmpty (l : Str) : (replQ l).isEmpty = l.isEmpty := by
  cases l <;> rfl

theorem truthy_replQO (o : Option Str) : truthy (replQO o) = truthy o := by
  cases o with
  | none => rfl
  | some s => simp [truthy, replQO, replQ_isEmpty]

theorem replQO_getD (o : Option Str) : (replQO o).getD [] = replQ (o.getD []) := by
  cases o <;> rfl

theorem isPrefixOf_replQ (pat : Str) (h : ∀ c ∈ pat, c ≠ '"' ∧ c ≠ 'x') :
    ∀ l, pat.isPrefixOf (replQ l) = pat.isPrefixOf l := by
  induction pat with
  | nil => intro l; cases l <;> rfl
  | cons p ps ih =>
    intro l
    cases l with
    | nil => rfl
    | cons c cs =>
      have hp := h p (List.mem_cons_self ..)
      have htail : ∀ c ∈ ps, c ≠ '"' ∧ c ≠ 'x' := fun c hc => h c (List.mem_cons_of_mem _ hc)
      show List.isPrefixOf (p :: ps) (replQC c :: replQ cs) = _
      by_cases hc : c = '"'
      · subst hc
        have h1 : replQC '"' = 'x' := rfl
        rw [h1]
        have h2 : (p == 'x') = false := by simp [hp.2]
        have h3 : (p == '"') = false := by simp [hp.1]
        simp [List.isPrefixOf, h2, h3]
      · have h1 : replQC c = c := by simp [replQC, hc]
        rw [h1]
        simp [List.isPrefixOf, ih htail]

theorem containsSub_replQ (pat : Str) (h : ∀ c ∈ pat, c ≠ '"' ∧ c ≠ 'x') :
    ∀ l, containsSub pat (replQ l) = containsSub pat l := by
  intro l
  induction l with
  | nil => rfl
  | cons c cs ih =>
    show containsSub pat (replQC c :: replQ cs) = _
    rw [containsSub, containsSub]
    have : replQC c :: replQ cs = replQ (c :: cs) := rfl
    rw [this, isPrefixOf_replQ pat h, ih]

theorem countQ_forall₂ {l₁ l₂ : List Str} (sep : Str)
    (h : List.Forall₂ (fun a b => countQ a = countQ b) l₁ l₂) :
    countQ (joinSep sep l₁) = countQ (joinSep sep l₂) := by
  induction h with
  | nil => rfl
  | cons hxy htail ih =>
    cases htail with
    | nil => simpa [joinSep] using hxy
    | cons h2 h3 =>
      have e1 : ∀ (s x y : Str) (rest : List Str),
          joinSep s (x :: y :: rest) = x ++ s ++ joinSep s (y :: rest) := fun _ _ _ _ => rfl
      rw [e1, e1, countQ_append, countQ_append, countQ_append, countQ_append, hxy, ih]

theorem forall₂_map_map {f g : Str → Str} (h : ∀ x, countQ (f x) = countQ (g x)) :
    ∀ l : List Str, List.Forall₂ (fun a b => countQ a = countQ b) (l.map f) (l.map g) := by
  intro l
  induction l with
  | nil => exact List.Forall₂.nil
  | cons x xs ih => exact List.Forall₂.cons (h x) ih

theorem forall₂_ite_singleton {c : Bool} {a b : Str} (h : countQ a = countQ b) :
    List.Forall₂ (fun a b => countQ a = countQ b)
      (if c then [a] else []) (if c then [b] else []) := by
  cases c
  · exact List.Forall₂.nil
  · exact List.Forall₂.cons h List.Forall₂.nil

theorem forall₂_countQ_append {l₁ l₂ l₃ l₄ : List Str}
    (h1 : List.Forall₂ (fun a b => countQ a = countQ b) l₁ l₂)
    (h2 : List.Forall₂ (fun a b => countQ a = countQ b) l₃ l₄) :
    List.Forall₂ (fun a b => countQ a = countQ b) (l₁ ++ l₃) (l₂ ++ l₄) := by
  induction h1 with
  | nil => exact h2
  | cons h _ ih => exact List.Forall₂.cons h ih

end Py

namespace BuildSites

/-- Replace every double quote in the user-supplied fields of a
`Business` (the fields named by the escaping claim; `slug`, `rating` and
`review_count` are untouched). -/
def replB {α : Type} (b : Business α) : Business α :=
  { b with
    name := Py.replQ b.name
    map_url := Py.replQ b.map_url
    category := Py.replQ b.category
    address := Py.replQ b.address
    status := Py.replQO b.status
    hours := Py.replQO b.hours
    phone := Py.replQO b.phone
    image_url := Py.replQO b.image_url
    features := b.features.map Py.replQ }

theorem replB_slug {α : Type} (b : Business α) : (replB b).slug = b.slug := rfl

theorem replB_name {α : Type} (b : Business α) : (replB b).name = Py.replQ b.name := rfl

theorem replB_map_url {α : Type} (b : Business α) : (replB b).map_url = Py.replQ b.map_url := rfl

theorem replB_category {α : Type} (b : Business α) :
    (replB b).category = Py.replQ b.category := rfl

theorem replB_address {α : Type} (b : Business α) : (replB b).address = Py.replQ b.address := rfl

theorem replB_status {α : Type} (b : Business α) : (replB b).status = Py.replQO b.status := rfl

theorem replB_phone {α : Type} (b : Business α) : (replB b).phone = Py.replQO b.phone := rfl

theorem replB_image_url {α : Type} (b : Business α) :
    (replB b).image_url = Py.replQO b.image_url := rfl

theorem replB_features {α : Type} (b : Business α) :
    (replB b).features = b.features.map Py.replQ := rfl

/-- `status_class` only probes quote-free substrings, so quote
replacement cannot change it. -/
theorem status_class_replQO (s : Option Str) :
    status_class (Py.replQO s) = status_class s := by
  unfold status_class
  rw [Py.truthy_replQO, Py.replQO_getD,
    Py.containsSub_replQ _ (by decide), Py.containsSub_replQ _ (by decide)]

/-- `formatted_rating` only reads the untouched rating fields. -/
theorem formatted_rating_replB {α : Type} (fmt : α → Str) (rnd : α → Nat) (b : Business α) :
    formatted_rating fmt rnd (replB b) = formatted_rating fmt rnd b := rfl

theorem countQ_chip_replQ (x : Str) : Py.countQ (chip (Py.replQ x)) = Py.countQ (chip x) := by
  unfold chip
  simp only [Py.countQ_append, Py.countQ_escape]

theorem countQ_chips_take (l : List Str) :
    Py.countQ (Py.joinSep [] (List.take 4 (List.map chip (List.map Py.replQ l)))) =
      Py.countQ (Py.joinSep [] (List.take 4 (List.map chip l))) := by
  rw [← List.map_take, ← List.map_take, ← List.map_take, List.map_map]
  exact Py.countQ_forall₂ [] (Py.forall₂_map_map (fun x => countQ_chip_replQ x) (l.take 4))

/-- The index card of `build_sites.py` is quote-count invariant under
quote replacement in every claimed field: each of them passes through
`html.escape`. -/
theorem render_card_replQ {α : Type} (fmt : α → Str) (rnd : α → Nat) (b : Business α) :
    Py.countQ (render_card fmt rnd (replB b)) = Py.countQ (render_card fmt rnd b) := by
  unfold render_card
  simp only [replB_slug, replB_name, replB_map_url, replB_category, replB_address,
    replB_status, replB_phone, replB_image_url, replB_features,
    formatted_rating_replB, status_class_replQO, Py.truthy_replQO, Py.replQO_getD,
    List.map_take]
  simp only [Py.countQ_append, Py.countQ_escape, countQ_chips_take, apply_ite Py.countQ]
  unfold telAnchor
  simp only [Py.countQ_append, Py.countQ_escape]


/-- The part of the build-variant card before the phone action slot
(every chunk verbatim from `render_card`). -/
def cardPrefix {α : Type} (fmt : α → Str) (rnd : α → Nat) (b : Business α) : Str :=
  let features_preview := b.features.take 4
  let feature_chips := Py.joinSep [] (features_preview.map chip)
  let status_text := Py.escape (Py.pyOr b.status statusDefault)
  let status_cls := status_class b.status
  let rating_text := Py.escape (formatted_rating fmt rnd b)
  let category := Py.escape b.category
  let address := Py.escape b.address
  let name := Py.escape b.name
  let image_tag :=
    "<img src=\"".data ++ Py.escape (Py.pyOr b.image_url placeholderImage) ++
      "\" alt=\"".data ++ name ++ "\" loading=\"lazy\" />".data
"<article class=\"card\" data-name=\"".data ++ name ++
    "\" data-category=\"".data ++ category ++
    "\" data-address=\"".data ++ address ++
    "\" data-features=\"".data ++ Py.escape (Py.joinSep " ".data b.features) ++
    "\" data-status=\"".data ++ Py.escape (Py.pyOr b.status []) ++
    "\">\n  ".data ++ image_tag ++
    "\n  <div class=\"card-body\">\n    <div class=\"card-header\">\n      <span class=\"status ".data ++
    status_cls ++ "\">".data ++ status_text ++
    "</span>\n      <span class=\"rating\">".data ++ rating_text ++
    "</span>\n    </div>\n    <h2>".data ++ name ++
    "</h2>\n    <p class=\"meta\">".data ++ category ++
    "</p>\n    <p class=\"address\">".data ++ address ++
    "</p>\n    <div class=\"chips\">".data ++ feature_chips ++
    "</div>\n    <div class=\"actions\">\n      <a class=\"button\" href=\"./businesses/".data ++
    b.slug ++
    "/index.html\">æŸ¥çœ‹å°ˆå±¬é </a>\n      <a class=\"button-ghost\" href=\"".data ++
    Py.escape b.map_url ++
    "\" target=\"_blank\" rel=\"noreferrer\">Google åœ°åœ–</a>\n      ".data

/-- The part of the build-variant card after the phone action slot. -/
def cardSuffix : Str := "\n    </div>\n  </div>\n</article>".data

theorem formatted_rating_set_phone {α : Type} (fmt : α → Str) (rnd : α → Nat)
    (b : Business α) (x : Option Str) :
    formatted_rating fmt rnd { b with phone := x } = formatted_rating fmt rnd b := rfl

/-- In `render_card`, a missing phone omits the tel: action entirely:
the card is exactly prefix ++ suffix, while a present phone inserts
exactly the tel anchor between the same prefix and suffix. -/
theorem render_card_phone_split {α : Type} (fmt : α → Str) (rnd : α → Nat) (b : Business α) :
    render_card fmt rnd { b with phone := none } = cardPrefix fmt rnd b ++ cardSuffix ∧
    ∀ p, p ≠ [] → render_card fmt rnd { b with phone := some p } =
      cardPrefix fmt rnd b ++ telAnchor p ++ cardSuffix := by
  constructor
  · unfold render_card cardPrefix cardSuffix
    have h0 : Py.truthy (none : Option Str) = false := rfl
    dsimp only
    rw [h0]
    simp only [formatted_rating_set_phone, Bool.false_eq_true, if_false, List.append_assoc,
      List.nil_append, List.append_nil]
  · intro p hp
    unfold render_card cardPrefix cardSuffix
    have ht : Py.truthy (some p) = true := by simp [Py.truthy, hp]
    dsimp only
    rw [ht]
    simp only [formatted_rating_set_phone, Option.getD_some, if_true, List.append_assoc,
      List.nil_append, List.append_nil]

end BuildSites

namespace GenSites

/-- Replace every double quote in the claimed fields of a `Shop` except
the phone (which `write_shop_page` interpolates raw; see the escaping
claim). -/
def replS {α : Type} (s : Shop α) : Shop α :=
  { s with
    name := Py.replQ s.name
    map_url := Py.replQ s.map_url
    category := Py.replQO s.category
    address := Py.replQO s.address
    status := Py.replQO s.status
    hours := Py.replQO s.hours
    image_url := Py.replQO s.image_url
    highlights := s.highlights.map Py.replQ }

/-- Quote replacement on every claimed field of a `Shop`, the phone
included: the transformation named by the escaping claim itself. -/
def replSAll {α : Type} (s : Shop α) : Shop α :=
  { replS s with phone := Py.replQO s.phone }

theorem replS_name {α : Type} (s : Shop α) : (replS s).name = Py.replQ s.name := rfl

theorem replS_map_url {α : Type} (s : Shop α) : (replS s).map_url = Py.replQ s.map_url := rfl

theorem replS_category {α : Type} (s : Shop α) : (replS s).category = Py.replQO s.category := rfl

theorem replS_address {α : Type} (s : Shop α) : (replS s).address = Py.replQO s.address := rfl

theorem replS_status {α : Type} (s : Shop α) : (replS s).status = Py.replQO s.status := rfl

theorem replS_hours {α : Type} (s : Shop α) : (replS s).hours = Py.replQO s.hours := rfl

theorem replS_phone {α : Type} (s : Shop α) : (replS s).phone = s.phone := rfl

theorem replS_image_url {α : Type} (s : Shop α) :
    (replS s).image_url = Py.replQO s.image_url := rfl

theorem replS_highlights {α : Type} (s : Shop α) :
    (replS s).highlights = s.highlights.map Py.replQ := rfl

theorem replS_sponsored {α : Type} (s : Shop α) : (replS s).sponsored = s.sponsored := rfl

theorem replS_slug {α : Type} (s : Shop α) : (replS s).slug = s.slug := rfl

theorem replS_rating {α : Type} (s : Shop α) : (replS s).rating = s.rating := rfl

theorem replS_review_count {α : Type} (s : Shop α) :
    (replS s).review_count = s.review_count := rfl

theorem countQ_badge_replQ (x : Str) : Py.countQ (badge (Py.replQ x)) = Py.countQ (badge x) := by
  unfold badge
  simp only [Py.countQ_append, Py.countQ_escape]

theorem countQ_joinSep_badges (l : List Str) :
    Py.countQ (Py.joinSep [] (List.map badge (List.map Py.replQ l))) =
      Py.countQ (Py.joinSep [] (List.map badge l)) := by
  rw [List.map_map]
  exact Py.countQ_forall₂ [] (Py.forall₂_map_map (fun x => countQ_badge_replQ x) l)

theorem countQ_render_badges_replS {α : Type} (s : Shop α) :
    Py.countQ (render_badges (replS s)) = Py.countQ (render_badges s) := by
  unfold render_badges
  dsimp only
  simp only [replS_category, replS_status, replS_hours, replS_sponsored,
    Py.truthy_replQO, Py.replQO_getD]
  apply Py.countQ_forall₂
  apply Py.forall₂_countQ_append
  · apply Py.forall₂_countQ_append
    · apply Py.forall₂_countQ_append
      · exact Py.forall₂_ite_singleton (countQ_badge_replQ _)
      · exact Py.forall₂_ite_singleton (countQ_badge_replQ _)
    · exact Py.forall₂_ite_singleton (countQ_badge_replQ _)
  · exact Py.forall₂_ite_singleton rfl

theorem countQ_render_tags_replS {α : Type} (s : Shop α) (limit : Option Nat) :
    Py.countQ (render_tags (replS s) limit) = Py.countQ (render_tags s limit) := by
  unfold render_tags
  simp only [replS_highlights]
  cases limit with
  | none =>
    dsimp only
    by_cases h : s.highlights = []
    · simp [h]
    · rw [if_neg (by simpa using h), if_neg h]
      simp only [Py.countQ_append, countQ_joinSep_badges]
  | some n =>
    dsimp only
    rw [← List.map_take]
    by_cases h : s.highlights.take n = []
    · simp [h]
    · rw [if_neg (by simpa using h), if_neg h]
      simp only [Py.countQ_append, countQ_joinSep_badges]

theorem render_tags_replS_eq_nil_iff {α : Type} (s : Shop α) :
    render_tags (replS s) none = [] ↔ render_tags s none = [] := by
  unfold render_tags
  simp only [replS_highlights]
  by_cases h : s.highlights = []
  · simp [h]
  · rw [if_neg (by simpa using h), if_neg h]
    constructor <;> intro hx <;> simp at hx

theorem countQ_mapAction_replQ (u : Str) :
    Py.countQ (mapAction (Py.replQ u)) = Py.countQ (mapAction u) := by
  unfold mapAction
  simp only [Py.countQ_append, Py.countQ_escape]

theorem replSAll_name {α : Type} (s : Shop α) : (replSAll s).name = Py.replQ s.name := rfl

theorem replSAll_map_url {α : Type} (s : Shop α) :
    (replSAll s).map_url = Py.replQ s.map_url := rfl

theorem replSAll_category {α : Type} (s : Shop α) :
    (replSAll s).category = Py.replQO s.category := rfl

theorem replSAll_address {α : Type} (s : Shop α) :
    (replSAll s).address = Py.replQO s.address := rfl

theorem replSAll_status {α : Type} (s : Shop α) : (replSAll s).status = Py.replQO s.status := rfl

theorem replSAll_hours {α : Type} (s : Shop α) : (replSAll s).hours = Py.replQO s.hours := rfl

theorem replSAll_phone {α : Type} (s : Shop α) : (replSAll s).phone = Py.replQO s.phone := rfl

theorem replSAll_image_url {α : Type} (s : Shop α) :
    (replSAll s).image_url = Py.replQO s.image_url := rfl

theorem replSAll_highlights {α : Type} (s : Shop α) :
    (replSAll s).highlights = s.highlights.map Py.replQ := rfl

theorem replSAll_sponsored {α : Type} (s : Shop α) :
    (replSAll s).sponsored = s.sponsored := rfl

theorem replSAll_slug {α : Type} (s : Shop α) : (replSAll s).slug = s.slug := rfl

theorem replSAll_rating {α : Type} (s : Shop α) : (replSAll s).rating = s.rating := rfl

theorem replSAll_review_count {α : Type} (s : Shop α) :
    (replSAll s).review_count = s.review_count := rfl

theorem countQ_render_badges_replSAll {α : Type} (s : Shop α) :
    Py.countQ (render_badges (replSAll s)) = Py.countQ (render_badges s) := by
  have h : render_badges (replSAll s) = render_badges (replS s) := rfl
  rw [h, countQ_render_badges_replS]

theorem countQ_render_tags_replSAll {α : Type} (s : Shop α) (limit : Option Nat) :
    Py.countQ (render_tags (replSAll s) limit) = Py.countQ (render_tags s limit) := by
  have h : render_tags (replSAll s) limit = render_tags (replS s) limit := rfl
  rw [h, countQ_render_tags_replS]

/-- The index card of `generate_sites.py` is quote-count invariant under
quote replacement in every claimed field, phone included (the card shows
the phone only as an escaped label). -/
theorem render_cardG_replQ {α : Type} (fmt : α → Str) (s : Shop α) :
    Py.countQ (render_card fmt (replSAll s)) = Py.countQ (render_card fmt s) := by
  unfold render_card
  dsimp only
  simp only [replSAll_name, replSAll_map_url, replSAll_address, replSAll_phone,
    replSAll_image_url, replSAll_slug, replSAll_rating, replSAll_review_count,
    Py.truthy_replQO, Py.replQO_getD]
  simp only [Py.countQ_append, Py.countQ_escape, apply_ite Py.countQ,
    countQ_render_badges_replSAll, countQ_render_tags_replSAll]

/-- The detail page of `generate_sites.py` is quote-count invariant
under quote replacement in every claimed field except the phone: those
fields all pass through `html.escape`.  (The phone is excluded here
because `write_shop_page` pastes it into the tel: href unescaped; the
escaping counterexample exhibits that leak.) -/
theorem write_shop_page_replQ {α : Type} (fmt : α → Str) (s : Shop α) :
    Py.countQ (write_shop_page fmt (replS s)) = Py.countQ (write_shop_page fmt s) := by
  unfold write_shop_page
  dsimp only
  simp only [replS_name, replS_map_url, replS_category, replS_address, replS_status,
    replS_hours, replS_phone, replS_image_url, replS_slug, replS_rating,
    replS_review_count, Py.truthy_replQO, Py.replQO_getD]
  by_cases hh : render_tags s none = []
  · rw [if_pos hh, if_pos ((render_tags_replS_eq_nil_iff s).mpr hh)]
    by_cases hp : Py.truthy s.phone
    · simp only [hp, if_true]
      dsimp only [Py.joinSep]
      simp only [Py.countQ_append, Py.countQ_escape, apply_ite Py.countQ,
        countQ_render_badges_replS, countQ_mapAction_replQ]
    · simp only [hp, if_false, Bool.false_eq_true]
      dsimp only [Py.joinSep]
      simp only [Py.countQ_append, Py.countQ_escape, apply_ite Py.countQ,
        countQ_render_badges_replS, countQ_mapAction_replQ]
  · rw [if_neg hh, if_neg (fun hx => hh ((render_tags_replS_eq_nil_iff s).mp hx))]
    by_cases hp : Py.truthy s.phone
    · simp only [hp, if_true]
      dsimp only [Py.joinSep]
      simp only [Py.countQ_append, Py.countQ_escape, apply_ite Py.countQ,
        countQ_render_badges_replS, countQ_mapAction_replQ, countQ_render_tags_replS]
    · simp only [hp, if_false, Bool.false_eq_true]
      dsimp only [Py.joinSep]
      simp only [Py.countQ_append, Py.countQ_escape, apply_ite Py.countQ,
        countQ_render_badges_replS, countQ_mapAction_replQ, countQ_render_tags_replS]


theorem render_badges_set_phone {α : Type} (s : Shop α) (x : Option Str) :
    render_badges { s with phone := x } = render_badges s := rfl

theorem render_tags_set_phone {α : Type} (s : Shop α) (x : Option Str) (limit : Option Nat) :
    render_tags { s with phone := x } limit = render_tags s limit := rfl

/-- The detail page up to the phone label slot (chunks verbatim from
`write_shop_page`; none of these read the phone). -/
def shopPageA {α : Type} (fmt : α → Str) (shop : Shop α) : Str :=
  let badges := render_badges shop
  let rating := match shop.rating with
    | some r => "⭐ ".data ++ fmt r
    | none => "尚無評分".data
  let reviews := match shop.review_count with
    | some n => Py.decStr n ++ " 則評論".data
    | none => "評論數未知".data
  let image := Py.pyOr shop.image_url PLACEHOLDER_IMAGE
  let category_chip :=
    if Py.truthy shop.category then
      "<span class=\"pill\">".data ++ Py.escape (shop.category.getD []) ++ "</span>".data
    else []
  "<!DOCTYPE html>\n<html lang=\"zh-Hant\">\n<head>\n  <meta charset=\"UTF-8\">\n  <meta name=\"viewport\" content=\"width=device-width, initial-scale=1\">\n  <title>".data ++
    Py.escape shop.name ++
    " | 台中水電行</title>\n  <link rel=\"stylesheet\" href=\"../assets/styles.css\">\n</head>\n<body class=\"page\">\n  <header class=\"hero\">\n    <div class=\"hero__content\">\n      <p class=\"pill\">獨立店家頁面</p>\n      <h1 class=\"hero__title\">".data ++
    Py.escape shop.name ++
    "</h1>\n      <p class=\"hero__subtitle\">".data ++
    Py.escape (Py.pyOr shop.address "尚無地址資料".data) ++
    "</p>\n      <div class=\"hero__stats\">\n        <span class=\"pill\">".data ++ rating ++
    "</span>\n        <span class=\"pill\">".data ++ reviews ++
    "</span>\n        ".data ++ category_chip ++
    "\n      </div>\n    </div>\n  </header>\n  <main class=\"content\">\n    <div class=\"detail-header\">\n      <img src=\"".data ++
    Py.escape image ++
    "\" alt=\"".data ++ Py.escape shop.name ++
    "\">\n      <div class=\"detail-body\">\n        <h2 class=\"name\">".data ++ Py.escape shop.name ++
    "</h2>\n        <div class=\"meta\">".data ++
    Py.escape (Py.pyOr shop.status "營業資訊未提供".data) ++
    "</div>\n        <div class=\"tag-row\">".data ++ badges ++
    "</div>\n        <div class=\"stat-line\">📍 ".data ++
    Py.escape (Py.pyOr shop.address "尚無地址".data) ++
    "</div>\n        <div class=\"stat-line\">☎ ".data

/-- The detail page between the phone label and the actions block. -/
def shopPageB {α : Type} (shop : Shop α) : Str :=

    "</div>\n        <div class=\"stat-line\">🔗 <a href=\"".data ++
    Py.escape shop.map_url ++
    "\" target=\"_blank\" rel=\"noopener\">前往 Google 地圖</a></div>\n        <div class=\"actions\">".data

/-- The detail page after the actions block. -/
def shopPageC {α : Type} (shop : Shop α) : Str :=
  let tags := render_tags shop none
  let highlight_block := if tags = [] then "<p class=\"meta\">尚無特色資料</p>".data else tags
"</div>\n      </div>\n    </div>\n    <section style=\"margin-top:24px;\">\n      <h3>特色與服務</h3>\n      ".data ++
    highlight_block ++
    "\n    </section>\n    <p style=\"margin-top:18px;\"><a href=\"../index.html\">← 返回店家列表</a></p>\n  </main>\n  <footer class=\"footer\">由 CSV 資料自動產生，適用於 GitHub Pages。</footer>\n</body>\n</html>\n".data

/-- In `write_shop_page`, a missing phone renders the placeholder label
and omits the tel action entirely; a present phone renders the escaped
label and inserts exactly the (unescaped) tel action, between the same
surrounding chunks. -/
theorem write_shop_page_phone_split {α : Type} (fmt : α → Str) (s : Shop α) :
    write_shop_page fmt { s with phone := none } =
      shopPageA fmt s ++ "尚無電話資訊".data ++ shopPageB s ++
        mapAction s.map_url ++ shopPageC s ∧
    ∀ p, p ≠ [] → write_shop_page fmt { s with phone := some p } =
      shopPageA fmt s ++ Py.escape p ++ shopPageB s ++
        (telAction ("tel:".data ++ p) ++ "\n        ".data ++ mapAction s.map_url) ++
        shopPageC s := by
  constructor
  · unfold write_shop_page shopPageA shopPageB shopPageC
    have h0 : Py.truthy (none : Option Str) = false := rfl
    dsimp only
    rw [h0]
    simp only [render_badges_set_phone, render_tags_set_phone, Bool.false_eq_true, if_false,
      Py.joinSep, List.append_assoc, List.nil_append, List.append_nil]
  · intro p hp
    unfold write_shop_page shopPageA shopPageB shopPageC
    have ht : Py.truthy (some p) = true := by simp [Py.truthy, hp]
    dsimp only
    rw [ht]
    simp only [render_badges_set_phone, render_tags_set_phone, Option.getD_some, if_true,
      Py.joinSep, List.append_assoc, List.nil_append, List.append_nil]

end GenSites

namespace Py

theorem countQ_joinSep_escWrap (pre post : Str) (l : List Str) :
    countQ (joinSep [] (List.map (fun t => pre ++ escape t ++ post) (List.map replQ l))) =
      countQ (joinSep [] (List.map (fun t => pre ++ escape t ++ post) l)) := by
  rw [List.map_map]
  refine countQ_forall₂ [] (forall₂_map_map (fun x => ?_) l)
  simp only [Function.comp_apply, countQ_append, countQ_escape]

theorem joinSep_cons_ne_nil (sep : Str) (a : Str) (rest : List Str) (ha : a ≠ []) :
    joinSep sep (a :: rest) ≠ [] := by
  cases rest <;> simp [joinSep, ha]

end Py

namespace Scripts

/-- Replace every double quote in the claimed fields of a `Store`
(name, category, address, status, hours, phone, map URL, image URL and
the feature strings; `rating`, `reviews`, `ad_link` and `slug` are not
in the claim and stay untouched). -/
def replStore (st : Store) : Store :=
  { st with
    name := Py.replQ st.name
    map_url := Py.replQO st.map_url
    category := Py.replQO st.category
    address := Py.replQO st.address
    status := Py.replQO st.status
    hours := Py.replQO st.hours
    phone := Py.replQO st.phone
    image_url := Py.replQO st.image_url
    badges := st.badges.map Py.replQ
    highlights := st.highlights.map Py.replQ }

theorem replStore_name (st : Store) : (replStore st).name = Py.replQ st.name := rfl

theorem replStore_map_url (st : Store) : (replStore st).map_url = Py.replQO st.map_url := rfl

theorem replStore_category (st : Store) : (replStore st).category = Py.replQO st.category := rfl

theorem replStore_address (st : Store) : (replStore st).address = Py.replQO st.address := rfl

theorem replStore_status (st : Store) : (replStore st).status = Py.replQO st.status := rfl

theorem replStore_hours (st : Store) : (replStore st).hours = Py.replQO st.hours := rfl

theorem replStore_phone (st : Store) : (replStore st).phone = Py.replQO st.phone := rfl

theorem replStore_image_url (st : Store) :
    (replStore st).image_url = Py.replQO st.image_url := rfl

theorem replStore_badges (st : Store) : (replStore st).badges = st.badges.map Py.replQ := rfl

theorem replStore_highlights (st : Store) :
    (replStore st).highlights = st.highlights.map Py.replQ := rfl

theorem replStore_rating (st : Store) : (replStore st).rating = st.rating := rfl

theorem replStore_reviews (st : Store) : (replStore st).reviews = st.reviews := rfl

theorem replStore_ad_link (st : Store) : (replStore st).ad_link = st.ad_link := rfl

theorem countQ_mapButton_replQ (u : Str) :
    Py.countQ (mapButton (Py.replQ u)) = Py.countQ (mapButton u) := by
  unfold mapButton
  simp only [Py.countQ_append, Py.countQ_escape]

theorem countQ_phoneButton_replQ (p : Str) :
    Py.countQ (phoneButton (Py.replQ p)) = Py.countQ (phoneButton p) := by
  unfold phoneButton
  simp only [Py.countQ_append, Py.countQ_escape]

/-- The detail page of `scripts/generate_sites.py` is quote-count
invariant under quote replacement in every claimed field: this variant
escapes everything it interpolates, the phone and its tel: href
included. -/
theorem render_store_replQ (st : Store) :
    Py.countQ (_render_store (replStore st)) = Py.countQ (_render_store st) := by
  unfold _render_store
  dsimp only
  simp only [replStore_name, replStore_map_url, replStore_category, replStore_address,
    replStore_status, replStore_hours, replStore_phone, replStore_image_url,
    replStore_badges, replStore_highlights, replStore_rating, replStore_reviews,
    replStore_ad_link, Py.truthy_replQO, Py.replQO_getD]
  cases hl : st.highlights with
  | nil =>
    dsimp only [List.map_nil]
    simp only [Py.countQ_append, Py.countQ_escape, apply_ite Py.countQ,
      Py.countQ_joinSep_escWrap, countQ_mapButton_replQ, countQ_phoneButton_replQ]
  | cons x t =>
    have h1 : Py.joinSep []
        (List.map (fun t => "<li>".data ++ Py.escape t ++ "</li>".data) (x :: t)) ≠ [] := by
      rw [List.map_cons]
      exact Py.joinSep_cons_ne_nil _ _ _ (by simp)
    have h2 : Py.joinSep []
        (List.map (fun t => "<li>".data ++ Py.escape t ++ "</li>".data)
          (List.map Py.replQ (x :: t))) ≠ [] := by
      rw [List.map_cons, List.map_cons]
      exact Py.joinSep_cons_ne_nil _ _ _ (by simp)
    rw [if_pos h2, if_pos h1]
    simp only [Py.countQ_append, Py.countQ_escape, apply_ite Py.countQ,
      Py.countQ_joinSep_escWrap, countQ_mapButton_replQ, countQ_phoneButton_replQ]


/-- The escaped map anchor of the contact list in `_render_store`. -/
def mapLinkAnchor (u : Str) : Str :=
  "<a href=\"".data ++ Py.escape u ++
    "\" target=\"_blank\" rel=\"noopener\">前往</a>".data

/-- The store page up to the map-button slot (chunks verbatim from
`_render_store`; nothing here reads the map URL). -/
def storeA (store : Store) : Str :=
  let phone_link := if Py.truthy store.phone then phoneButton (store.phone.getD []) else []
  let title := Py.escape store.name
  let address := Py.escape (Py.pyOr store.address "未提供地址".data)
  "\n<!doctype html>\n<html lang=\"zh-Hant\">\n<head>\n    <meta charset=\"utf-8\">\n    <meta name=\"viewport\" content=\"width=device-width, initial-scale=1\">\n    <title>".data ++
    title ++
    " | 水電行介紹</title>\n    <link rel=\"stylesheet\" href=\"../assets/styles.css\">\n</head>\n<body>\n    <nav class=\"top-bar\">\n        <a href=\"../index.html\" class=\"back-link\">← 返回列表</a>\n        <span class=\"brand\">GitHub Pages</span>\n    </nav>\n    <header class=\"store-hero\">\n        <div class=\"store-hero__image\" style=\"background-image:url(\x27".data ++
    Py.escape (Py.pyOr store.image_url []) ++
    "\x27);\"></div>\n        <div class=\"store-hero__body\">\n            <p class=\"eyebrow\">".data ++
    Py.escape (Py.pyOr store.category "服務類別未提供".data) ++
    "</p>\n            <h1>".data ++ title ++
    "</h1>\n            <p class=\"lede\">".data ++ address ++
    "</p>\n            <div class=\"meta\">\n                <span>⭐ ".data ++
    Py.escape (Py.pyOr store.rating "無評分".data) ++
    "</span>\n                <span>".data ++
    Py.escape (if store.reviews = [] then "0".data else store.reviews) ++
    " 則評論</span>\n                <span>".data ++
    Py.escape (Py.pyOr store.status "營業資訊未提供".data) ++
    "</span>\n                <span>".data ++
    Py.escape (Py.pyOr store.hours []) ++
    "</span>\n            </div>\n            <div class=\"actions\">\n                ".data ++
    phone_link ++
    "\n                ".data

/-- The store page between the map-button slot and the map-link slot. -/
def storeB (store : Store) : Str :=
  let badges := Py.joinSep [] (store.badges.map (fun b =>
    "<span class=\"badge\">".data ++ Py.escape b ++ "</span>".data))
  let highlights := Py.joinSep [] (store.highlights.map (fun t =>
    "<li>".data ++ Py.escape t ++ "</li>".data))
  let ad_link := if Py.truthy store.ad_link then adButton (store.ad_link.getD []) else []
  let title := Py.escape store.name
  let address := Py.escape (Py.pyOr store.address "未提供地址".data)
  let highlight_block :=
    if highlights ≠ [] then
      "<ul class=\"highlight-list\">".data ++ highlights ++ "</ul>".data
    else "<p>尚無補充描述。</p>".data
  "\n                ".data ++ ad_link ++
    "\n            </div>\n            <div class=\"badges\">".data ++ badges ++
    "</div>\n        </div>\n    </header>\n\n    <main class=\"content content--narrow\">\n        <section class=\"panel\">\n            <h2>店家重點</h2>\n            ".data ++
    highlight_block ++
    "\n        </section>\n        <section class=\"panel\">\n            <h2>聯絡資訊</h2>\n            <dl class=\"info\">\n                <div><dt>電話</dt><dd>".data ++
    Py.escape (Py.pyOr store.phone "未提供".data) ++
    "</dd></div>\n                <div><dt>地址</dt><dd>".data ++ address ++
    "</dd></div>\n                <div><dt>Google 地圖</dt><dd>".data

/-- The store page after the map-link slot. -/
def storeC (store : Store) : Str :=
  let ad_link_short :=
    if Py.truthy store.ad_link then
      "<a href=\"".data ++ Py.escape (store.ad_link.getD []) ++
        "\" target=\"_blank\" rel=\"noopener\">造訪</a>".data
    else "未提供".data
  "</dd></div>\n                <div><dt>廣告/官網</dt><dd>".data ++ ad_link_short ++
    "</dd></div>\n            </dl>\n        </section>\n    </main>\n</body>\n</html>\n".data

/-- In `_render_store`, a missing map URL omits the map button entirely
and renders the textual placeholder in the contact list; a present map
URL inserts exactly the escaped button and anchor, between the same
surrounding chunks. -/
theorem render_store_map_split (st : Store) :
    _render_store { st with map_url := none } =
      storeA st ++ storeB st ++ "未提供".data ++ storeC st ∧
    ∀ u, u ≠ [] → _render_store { st with map_url := some u } =
      storeA st ++ mapButton u ++ storeB st ++ mapLinkAnchor u ++ storeC st := by
  constructor
  · unfold _render_store storeA storeB storeC
    have h0 : Py.truthy (none : Option Str) = false := rfl
    dsimp only
    rw [h0]
    simp only [Bool.false_eq_true, if_false, List.append_assoc, List.nil_append,
      List.append_nil]
  · intro u hu
    unfold _render_store storeA storeB storeC mapButton mapLinkAnchor
    have ht : Py.truthy (some u) = true := by simp [Py.truthy, hu]
    dsimp only
    rw [ht]
    simp only [Option.getD_some, if_true, List.append_assoc, List.nil_append,
      List.append_nil]

end Scripts

/-! ### Slug uniqueness across a run -/

namespace BuildSites

theorem mkBusiness_slug_not_mem {α : Type} (u : UniModel) (pf : Str → Option α)
    (row : List Str) (idx : Nat) (seen : List Str) :
    (mkBusiness u pf row idx seen).slug ∉ seen := by
  show Py.allocSlug _ _ ∉ _
  exact Py.allocSlug_not_mem _ _

/-- Every slug allocated by the row loop is fresh with respect to the
incoming visited set, and the allocated slugs are pairwise distinct. -/
theorem parseRows_fresh_nodup {α : Type} (u : UniModel) (pf : Str → Option α) :
    ∀ (rows : List (List Str)) (idx : Nat) (seen : List Str),
      (∀ s ∈ (parseRows u pf rows idx seen).map Business.slug, s ∉ seen) ∧
        ((parseRows u pf rows idx seen).map Business.slug).Nodup := by
  intro rows
  induction rows with
  | nil => simp [parseRows]
  | cons row rest ih =>
    intro idx seen
    rw [parseRows]
    split
    · exact ih (idx + 1) seen
    · obtain ⟨ih1, ih2⟩ := ih (idx + 1) (seen ++ [(mkBusiness u pf row idx seen).slug])
      rw [List.map_cons]
      refine ⟨?_, ?_⟩
      · intro s hs
        rcases List.mem_cons.mp hs with rfl | hst
        · exact mkBusiness_slug_not_mem u pf row idx seen
        · intro hmem
          exact ih1 s hst (List.mem_append_left _ hmem)
      · rw [List.nodup_cons]
        refine ⟨?_, ih2⟩
        intro hmem
        exact ih1 _ hmem (List.mem_append_right _ (by simp))

end BuildSites

namespace GenSites

theorem mkShop_slug_not_mem {α : Type} (nfkd : Str → Str) (pf : Str → Option α)
    (row : List Str) (index : Nat) (used : List Str) :
    (mkShop nfkd pf row index used).slug ∉ used := by
  show Py.allocSlug _ _ ∉ _
  exact Py.allocSlug_not_mem _ _

/-- Same freshness/distinctness for the generate-variant row loop. -/
theorem buildShopsGo_fresh_nodup {α : Type} (nfkd : Str → Str) (pf : Str → Option α) :
    ∀ (rows : List (List Str)) (index : Nat) (used : List Str),
      (∀ s ∈ (buildShopsGo nfkd pf rows index used).map Shop.slug, s ∉ used) ∧
        ((buildShopsGo nfkd pf rows index used).map Shop.slug).Nodup := by
  intro rows
  induction rows with
  | nil => simp [buildShopsGo]
  | cons row rest ih =>
    intro index used
    rw [buildShopsGo]
    obtain ⟨ih1, ih2⟩ := ih (index + 1) (used ++ [(mkShop nfkd pf row index used).slug])
    rw [List.map_cons]
    refine ⟨?_, ?_⟩
    · intro s hs
      rcases List.mem_cons.mp hs with rfl | hst
      · exact mkShop_slug_not_mem nfkd pf row index used
      · intro hmem
        exact ih1 s hst (List.mem_append_left _ hmem)
    · rw [List.nodup_cons]
      refine ⟨?_, ih2⟩
      intro hmem
      exact ih1 _ hmem (List.mem_append_right _ (by simp))

end GenSites

/-! ### Slug character sets -/

namespace Py

theorem toNat_ofNat_valid (n : Nat) (h : n.isValidChar) : (Char.ofNat n).toNat = n := by
  simp [Char.ofNat, h, Char.toNat, Char.ofNatAux]
  rfl

theorem mem_dashColl_cons : ∀ (rest : Str) (a c : Char), c ∈ dashColl (a :: rest) → c = a ∨ c ∈ rest := by
  intro rest
  induction rest with
  | nil =>
    intro a c h
    simp [dashColl] at h
    exact Or.inl h
  | cons d t ih =>
    intro a c h
    rw [dashColl] at h
    split at h
    · rcases ih d c h with rfl | hmem
      · exact Or.inr (by simp)
      · exact Or.inr (by simp [hmem])
    · rcases List.mem_cons.mp h with rfl | h2
      · exact Or.inl rfl
      · rcases ih d c h2 with rfl | hmem
        · exact Or.inr (by simp)
        · exact Or.inr (by simp [hmem])

theorem mem_dashColl {c : Char} : ∀ {l : Str}, c ∈ dashColl l → c ∈ l := by
  intro l
  cases l with
  | nil => intro h; simpa [dashColl] using h
  | cons a rest =>
    intro h
    rcases mem_dashColl_cons rest a c h with rfl | hmem
    · simp
    · simp [hmem]

theorem mem_reSubDash {keep : Char → Bool} {c : Char} {l : Str}
    (h : c ∈ reSubDash keep l) : keep c = true ∨ c = '-' := by
  unfold reSubDash at h
  have h2 := mem_dashColl h
  rw [List.mem_map] at h2
  obtain ⟨a, -, ha⟩ := h2
  by_cases hk : keep a = true
  · rw [if_pos hk] at ha
    subst ha
    exact Or.inl hk
  · rw [if_neg hk] at ha
    exact Or.inr ha.symm

theorem mem_dropWhile {p : Char → Bool} {c : Char} :
    ∀ {l : Str}, c ∈ l.dropWhile p → c ∈ l := by
  intro l
  induction l with
  | nil => intro h; simpa using h
  | cons a rest ih =>
    intro h
    rw [List.dropWhile] at h
    split at h
    · exact List.mem_cons_of_mem a (ih h)
    · exact h

theorem mem_stripWith {p : Char → Bool} {c : Char} {l : Str}
    (h : c ∈ stripWith p l) : c ∈ l := by
  unfold stripWith at h
  rw [List.mem_reverse] at h
  have h2 := mem_dropWhile h
  rw [List.mem_reverse] at h2
  exact mem_dropWhile h2

/-- The lower-case URL-safe slug alphabet `[a-z0-9-]` of the claim. -/
def isLowerSlugChar (c : Char) : Bool :=
  (97 ≤ c.toNat && c.toNat ≤ 122) || (48 ≤ c.toNat && c.toNat ≤ 57) || c.toNat = 45

theorem isLowerSlugChar_digit {c : Char} (h1 : 48 ≤ c.toNat) (h2 : c.toNat ≤ 57) :
    isLowerSlugChar c = true := by
  simp [isLowerSlugChar]
  omega

theorem isLowerSlugChar_decStr (n : Nat) : ∀ c ∈ decStr n, isLowerSlugChar c = true := by
  intro c hc
  obtain ⟨h1, h2⟩ := decStr_mem_digits n c hc
  exact isLowerSlugChar_digit h1 h2

/-- Any character predicate preserved by the loop suffix machinery is
preserved by `allocSlug`. -/
theorem allocSlug_chars (P : Char → Bool) (hdash : P '-' = true)
    (hdig : ∀ c : Char, 48 ≤ c.toNat → c.toNat ≤ 57 → P c = true)
    (base : Str) (existing : List Str) (hbase : ∀ c ∈ base, P c = true) :
    ∀ c ∈ allocSlug base existing, P c = true := by
  intro c hc
  rw [allocSlug] at hc
  split at hc
  · obtain ⟨k, -, heq, -, -⟩ := suffixLoop_least base existing 2
    rw [heq] at hc
    unfold cand at hc
    rcases List.mem_append.mp hc with hm | hm
    · exact hbase c hm
    · rcases List.mem_cons.mp hm with rfl | hm2
      · exact hdash
      · obtain ⟨h1, h2⟩ := decStr_mem_digits k c hm2
        exact hdig c h1 h2
  · exact hbase c hc

end Py

namespace GenSites

theorem lower_keep {c : Char} (h : keepAscii c = true ∨ c = '-') :
    Py.isLowerSlugChar (Py.lower c) = true := by
  rcases h with h | rfl
  · simp only [keepAscii, Bool.or_eq_true, Bool.and_eq_true, decide_eq_true_eq] at h
    rcases h with (⟨h1, h2⟩ | ⟨h1, h2⟩) | ⟨h1, h2⟩
    · have g1 : (97 : Nat) ≤ c.toNat := h1
      have g2 : c.toNat ≤ 122 := h2
      unfold Py.lower
      rw [if_neg ?hc]
      case hc =>
        simp only [Bool.and_eq_true, decide_eq_true_eq]
        rintro ⟨-, hz⟩
        have g3 : c.toNat ≤ 90 := hz
        omega
      simp only [Py.isLowerSlugChar, Bool.or_eq_true, Bool.and_eq_true, decide_eq_true_eq]
      omega
    · have g1 : (65 : Nat) ≤ c.toNat := h1
      have g2 : c.toNat ≤ 90 := h2
      unfold Py.lower
      rw [if_pos (by simp only [Bool.and_eq_true, decide_eq_true_eq]; exact ⟨h1, h2⟩)]
      have hv : (c.toNat + 32).isValidChar := Or.inl (by omega)
      simp only [Py.isLowerSlugChar, Py.toNat_ofNat_valid _ hv, Bool.or_eq_true,
        Bool.and_eq_true, decide_eq_true_eq]
      omega
    · have g1 : (48 : Nat) ≤ c.toNat := h1
      have g2 : c.toNat ≤ 57 := h2
      unfold Py.lower
      rw [if_neg ?hd]
      case hd =>
        simp only [Bool.and_eq_true, decide_eq_true_eq]
        rintro ⟨ha, -⟩
        have g3 : (65 : Nat) ≤ c.toNat := ha
        omega
      exact Py.isLowerSlugChar_digit g1 g2
  · decide

/-- Every character of a generate-variant slug is lower-case ASCII
alphanumeric or a dash, whatever the NFKD normalization returns. -/
theorem slugifyG_chars (nfkd : Str → Str) (name : Str) (idx : Nat) (existing : List Str) :
    ∀ c ∈ slugify nfkd name idx existing, Py.isLowerSlugChar c = true := by
  unfold slugify
  dsimp only
  apply Py.allocSlug_chars _ (by decide) (fun c h1 h2 => Py.isLowerSlugChar_digit h1 h2)
  intro c hc
  split at hc
  · rcases List.mem_append.mp hc with hm | hm
    · have hlit : ∀ x ∈ "shop-".data, Py.isLowerSlugChar x = true := by decide
      exact hlit c hm
    · exact Py.isLowerSlugChar_decStr _ c hm
  · rw [Py.lowerStr, List.mem_map] at hc
    obtain ⟨a, ha, rfl⟩ := hc
    rcases Py.mem_reSubDash (Py.mem_stripWith ha) with h | rfl
    · exact lower_keep (Or.inl h)
    · exact lower_keep (Or.inr rfl)

end GenSites

namespace Scripts

/-- Every character of a scripts-variant slug is lower-case ASCII
alphanumeric or a dash, provided the fallback token is. -/
theorem slugifyS_chars (nfkd : Str → Str) (name : Str) (existing : List Str) (fallback : Str)
    (hfb : ∀ c ∈ fallback, Py.isLowerSlugChar c = true) :
    ∀ c ∈ _slugify nfkd name existing fallback, Py.isLowerSlugChar c = true := by
  unfold _slugify
  dsimp only
  apply Py.allocSlug_chars _ (by decide) (fun c h1 h2 => Py.isLowerSlugChar_digit h1 h2)
  intro c hc
  split at hc
  · exact hfb c hc
  · rcases Py.mem_reSubDash (Py.mem_stripWith hc) with h | rfl
    · simp only [keepLower, Bool.or_eq_true, Bool.and_eq_true, decide_eq_true_eq] at h
      simp only [Py.isLowerSlugChar, Bool.or_eq_true, Bool.and_eq_true, decide_eq_true_eq]
      rcases h with ⟨h1, h2⟩ | ⟨h1, h2⟩
      · exact Or.inl (Or.inl ⟨h1, h2⟩)
      · exact Or.inl (Or.inr ⟨h1, h2⟩)
    · decide

/-- The slug of every parsed store is lower-case URL-safe. -/
theorem mkStore_slug_chars (nfkd : Str → Str) (row : Row) (index : Nat) (existing : List Str) :
    ∀ c ∈ (mkStore nfkd row index existing).slug, Py.isLowerSlugChar c = true := by
  have h : (mkStore nfkd row index existing).slug =
      _slugify nfkd
        (let n := Py.strip ((row.lookup "qBF1Pd".data).getD [])
         if n = [] then "未命名店家 ".data ++ Py.decStr index else n)
        existing ("store-".data ++ Py.decStr index) := rfl
  rw [h]
  apply slugifyS_chars
  intro c hc
  rcases List.mem_append.mp hc with hm | hm
  · have hlit : ∀ x ∈ "store-".data, Py.isLowerSlugChar x = true := by decide
    exact hlit c hm
  · exact Py.isLowerSlugChar_decStr _ c hm

end Scripts

namespace BuildSites

/-- The build-variant slug alphabet: ASCII alphanumerics, CJK ideographs
and the dash.  Upper-case characters are allowed: this variant never
lower-cases. -/
def isSlugCharB (c : Char) : Bool := keepChar c || c = '-'

theorem isSlugCharB_digit {c : Char} (h1 : 48 ≤ c.toNat) (h2 : c.toNat ≤ 57) :
    isSlugCharB c = true := by
  have g1 : '0' ≤ c := h1
  have g2 : c ≤ '9' := h2
  simp [isSlugCharB, keepChar]
  exact Or.inl (Or.inl (Or.inl (Or.inl ⟨g1, g2⟩)))

/-- Every slug produced by the build-variant `slugify` stays inside the
build alphabet. -/
theorem slugifyB_chars (name : Str) (idx : Nat) :
    ∀ c ∈ slugify name idx, isSlugCharB c = true := by
  intro c hc
  rw [slugify] at hc
  dsimp only at hc
  split at hc
  · rcases List.mem_append.mp hc with hm | hm
    · have hlit : ∀ x ∈ "business-".data, isSlugCharB x = true := by decide
      exact hlit c hm
    · obtain ⟨h1, h2⟩ := Py.decStr_mem_digits _ c hm
      exact isSlugCharB_digit h1 h2
  · rcases Py.mem_reSubDash (Py.mem_stripWith hc) with h2 | rfl
    · simp [isSlugCharB, h2]
    · decide

/-- The slug of every parsed business stays inside the build-variant
alphabet (for any Unicode model and float parser). -/
theorem mkBusiness_slug_chars {α : Type} (u : UniModel) (pf : Str → Option α)
    (row : List Str) (idx : Nat) (seen : List Str) :
    ∀ c ∈ (mkBusiness u pf row idx seen).slug, isSlugCharB c = true := by
  have h : (mkBusiness u pf row idx seen).slug =
      Py.allocSlug
        (slugify
          (let n := Py.strip (row.getD 1 [])
           if n = [] then namePlaceholder ++ Py.decStr idx else n) idx) seen := rfl
  rw [h]
  exact Py.allocSlug_chars _ (by decide) (fun c h1 h2 => isSlugCharB_digit h1 h2) _ _
    (slugifyB_chars _ idx)

end BuildSites

/-! ### Marker and bullet handling in the feature pipelines -/

namespace Py

theorem infix_dropWhile {p : Char → Bool} {m : Str} (hm : m ≠ [])
    (hh : ∀ c ∈ m, p c = false) : ∀ {l : Str}, m <:+: l → m <:+: l.dropWhile p := by
  intro l
  induction l with
  | nil => intro h; simpa using h
  | cons a rest ih =>
    intro h
    rw [List.dropWhile]
    split
    · rcases List.infix_cons_iff.mp h with hpre | hinf
      · obtain ⟨t, ht⟩ := hpre
        cases m with
        | nil => exact absurd rfl hm
        | cons x xs =>
          have hx : x = a := by
            have := congrArg (fun l => l.headD 'a') ht
            simpa using this
          subst hx
          rename_i hpa
          rw [hh x (by simp)] at hpa
          cases hpa
      · exact ih hinf
    · exact h

theorem infix_stripWith {p : Char → Bool} {m l : Str} (hm : m ≠ [])
    (hh : ∀ c ∈ m, p c = false) (h : m <:+: l) : m <:+: stripWith p l := by
  unfold stripWith
  rw [← List.reverse_infix]
  rw [List.reverse_reverse]
  apply infix_dropWhile (by simpa using hm)
  · intro c hc
    exact hh c (by simpa using hc)
  · rw [List.reverse_infix]
    exact infix_dropWhile hm hh h

end Py

namespace GenSites

theorem adMarker_chars :
    ∀ c ∈ adMarker, Py.isSpace c = false ∧ (c = '·') = False ∧ (decide (c = '·')) = false := by
  decide

theorem tidy_some_ne_nil {v x : Str} (h : tidy v = some x) : x ≠ [] := by
  unfold tidy at h
  split at h
  · cases h
  · dsimp only at h
    split at h
    · cases h
    · injection h with h2
      subst h2
      assumption

/-- A cell containing the advertising marker survives `tidy` with the
marker still inside. -/
theorem tidy_marker {v : Str} (h : adMarker <:+: v) :
    ∃ x, tidy v = some x ∧ adMarker <:+: x := by
  have hm : adMarker ≠ [] := by decide
  have hv : v ≠ [] := by
    intro hv
    subst hv
    exact hm (List.eq_nil_of_infix_nil h)
  have hchain : adMarker <:+:
      Py.strip ((Py.strip v).dropWhile (fun c => decide (c = '·'))) := by
    apply Py.infix_stripWith hm (fun c hc => (adMarker_chars c hc).1)
    apply Py.infix_dropWhile hm (fun c hc => (adMarker_chars c hc).2.2)
    exact Py.infix_stripWith hm (fun c hc => (adMarker_chars c hc).1) h
  refine ⟨_, ?_, hchain⟩
  unfold tidy
  rw [if_neg hv]
  dsimp only
  rw [if_neg ?hne]
  case hne =>
    intro hnil
    rw [hnil] at hchain
    exact hm (List.eq_nil_of_infix_nil hchain)

theorem collectGo_sp_true : ∀ (raws : List Str) (acc : List Str),
    (collectGo raws acc true).2 = true := by
  intro raws
  induction raws with
  | nil => intro acc; rfl
  | cons v rest ih =>
    intro acc
    rw [collectGo]
    rcases htv : tidy v with - | x
    · exact ih acc
    · dsimp only
      split
      · exact ih acc
      · split
        · exact ih acc
        · split
          · exact ih (acc ++ [x])
          · exact ih acc

/-- Any raw cell containing the advertising marker makes the collector
set the sponsorship flag. -/
theorem collectGo_marker {v : Str} (hmark : adMarker <:+: v) :
    ∀ (raws : List Str) (acc : List Str) (sp : Bool),
      v ∈ raws → (collectGo raws acc sp).2 = true := by
  intro raws
  induction raws with
  | nil => intro acc sp h; cases h
  | cons w rest ih =>
    intro acc sp hv
    rcases List.mem_cons.mp hv with rfl | hvr
    · obtain ⟨x, hx, hxm⟩ := tidy_marker hmark
      rw [collectGo, hx]
      dsimp only
      rw [if_neg ?hdot, if_pos ?hcont]
      case hdot =>
        intro hdot
        subst hdot
        have := List.IsInfix.length_le hxm
        simp [adMarker] at this
      case hcont =>
        exact (Py.containsSub_iff _ _).mpr hxm
      exact collectGo_sp_true rest acc
    · rw [collectGo]
      rcases htw : tidy w with - | x
      · exact ih acc sp hvr
      · dsimp only
        split
        · exact ih acc sp hvr
        · split
          · exact collectGo_sp_true rest acc
          · split
            · exact ih (acc ++ [x]) sp hvr
            · exact ih acc sp hvr

theorem clean_some_facts {v x : Str} (htv : tidy v = some x) (hdot : ¬x = "·".data)
    (hmk : ¬Py.containsSub adMarker x = true) :
    x ≠ [] ∧ x ≠ "·".data ∧ ¬ adMarker <:+: x :=
  ⟨tidy_some_ne_nil htv, hdot, fun h => hmk ((Py.containsSub_iff _ _).mpr h)⟩

/-- Everything the collector keeps is a non-empty, non-bullet string
free of the advertising marker (given the accumulator is). -/
theorem collectGo_mem : ∀ (raws : List Str) (acc : List Str) (sp : Bool),
    (∀ x ∈ acc, x ≠ [] ∧ x ≠ "·".data ∧ ¬ adMarker <:+: x) →
    ∀ x ∈ (collectGo raws acc sp).1, x ≠ [] ∧ x ≠ "·".data ∧ ¬ adMarker <:+: x := by
  intro raws
  induction raws with
  | nil => intro acc sp hacc; exact hacc
  | cons v rest ih =>
    intro acc sp hacc
    rw [collectGo]
    rcases htv : tidy v with - | x
    · exact ih acc sp hacc
    · dsimp only
      split
      · exact ih acc sp hacc
      · rename_i hdot
        split
        · exact ih acc true hacc
        · rename_i hmk
          split
          · apply ih (acc ++ [x]) sp
            intro y hy
            rcases List.mem_append.mp hy with hya | hyx
            · exact hacc y hya
            · rw [List.mem_singleton] at hyx
              subst hyx
              exact clean_some_facts htv hdot hmk
          · exact ih acc sp hacc

/-- The collector never records duplicates. -/
theorem collectGo_nodup : ∀ (raws : List Str) (acc : List Str) (sp : Bool),
    acc.Nodup → (collectGo raws acc sp).1.Nodup := by
  intro raws
  induction raws with
  | nil => intro acc sp h; exact h
  | cons v rest ih =>
    intro acc sp hacc
    rw [collectGo]
    rcases htv : tidy v with - | x
    · exact ih acc sp hacc
    · dsimp only
      split
      · exact ih acc sp hacc
      · split
        · exact ih acc true hacc
        · split
          · rename_i hnotmem
            apply ih (acc ++ [x]) sp
            simp [List.nodup_append, hacc, hnotmem]
          · exact ih acc sp hacc

end GenSites

namespace BuildSites

theorem adMarkerB_chars :
    ∀ c ∈ adMarker, Py.isSpace c = false ∧ stripBulletChar c = false := by
  decide

/-- A cell containing the (mojibake) advertising marker is rejected by
`clean_feature`, whatever the Unicode model. -/
theorem clean_feature_marker (u : UniModel) {cell : Str} (h : adMarker <:+: cell) :
    clean_feature u cell = none := by
  have hm : adMarker ≠ [] := by decide
  have htext : adMarker <:+:
      Py.strip (Py.stripWith stripBulletChar (Py.strip cell)) := by
    apply Py.infix_stripWith hm (fun c hc => (adMarkerB_chars c hc).1)
    apply Py.infix_stripWith hm (fun c hc => (adMarkerB_chars c hc).2)
    exact Py.infix_stripWith hm (fun c hc => (adMarkerB_chars c hc).1) h
  unfold clean_feature
  dsimp only
  split_ifs with h1 h2 h3 h4 h5 <;> try rfl
  exact absurd ((Py.containsSub_iff _ _).mpr htext) (by simp [h3])

/-- Anything `clean_feature` accepts is free of the advertising marker. -/
theorem clean_feature_some_no_marker (u : UniModel) {cell f : Str}
    (h : clean_feature u cell = some f) : ¬ adMarker <:+: f := by
  unfold clean_feature at h
  dsimp only at h
  split_ifs at h with h1 h2 h3 h4 h5
  injection h with h6
  subst h6
  intro hinf
  exact h3 ((Py.containsSub_iff _ _).mpr hinf)

/-- The feature collector keeps the list duplicate-free. -/
theorem collectFeatures_nodup (u : UniModel) : ∀ (cells acc : List Str),
    acc.Nodup → (collectFeatures u cells acc).Nodup := by
  intro cells
  induction cells with
  | nil => intro acc h; exact h
  | cons cell rest ih =>
    intro acc hacc
    rw [collectFeatures]
    rcases hcf : clean_feature u cell with - | f
    · exact ih acc hacc
    · dsimp only
      split
      · rename_i hcond
        apply ih (acc ++ [f])
        simp [List.nodup_append, hacc, hcond.2]
      · exact ih acc hacc

/-- Every collected feature either was already accumulated or comes from
an accepted cell; in particular none contains the advertising marker. -/
theorem collectFeatures_no_marker (u : UniModel) : ∀ (cells acc : List Str),
    (∀ x ∈ acc, ¬ adMarker <:+: x) →
    ∀ x ∈ collectFeatures u cells acc, ¬ adMarker <:+: x := by
  intro cells
  induction cells with
  | nil => intro acc h; exact h
  | cons cell rest ih =>
    intro acc hacc
    rw [collectFeatures]
    rcases hcf : clean_feature u cell with - | f
    · exact ih acc hacc
    · dsimp only
      split
      · apply ih (acc ++ [f])
        intro y hy
        rcases List.mem_append.mp hy with hya | hyf
        · exact hacc y hya
        · rw [List.mem_singleton] at hyf
          subst hyf
          exact clean_feature_some_no_marker u hcf
      · exact ih acc hacc

end BuildSites

/-! ### Determinism of the index options -/

namespace BuildSites

/-- `sorted` is a function of the multiset alone: any two enumerations
of the same set sort to the same list. -/
theorem pySorted_perm {l₁ l₂ : List Str} (h : l₁.Perm l₂) : pySorted l₁ = pySorted l₂ := by
  unfold pySorted
  have hp : (l₁.map (fun s => String.mk s)).Perm (l₂.map (fun s => String.mk s)) := h.map _
  congr 1
  exact List.eq_of_perm_of_sorted
    ((List.mergeSort_perm _ _).trans (hp.trans (List.mergeSort_perm _ _).symm))
    (List.sorted_mergeSort' _) (List.sorted_mergeSort' _)

theorem mem_pySorted {x : Str} {l : List Str} : x ∈ pySorted l ↔ x ∈ l := by
  unfold pySorted
  constructor
  · intro h
    rw [List.mem_map] at h
    obtain ⟨s, hs, rfl⟩ := h
    have := (List.mergeSort_perm (l.map (fun s => String.mk s)) _).mem_iff.mp hs
    rw [List.mem_map] at this
    obtain ⟨y, hy, hsy⟩ := this
    subst hsy
    exact hy
  · intro h
    rw [List.mem_map]
    refine ⟨String.mk x, ?_, rfl⟩
    exact (List.mergeSort_perm (l.map (fun s => String.mk s)) _).mem_iff.mpr
      (List.mem_map_of_mem _ h)

theorem pySorted_sorted (l : List Str) :
    (pySorted l).Pairwise (fun a b => String.mk a ≤ String.mk b) := by
  unfold pySorted
  have hs : ((l.map (fun s => String.mk s)).mergeSort (· ≤ ·)).Pairwise (· ≤ ·) :=
    List.sorted_mergeSort' _
  exact (List.pairwise_map).mpr (hs.imp (fun {a b} hab => by simpa using hab))

theorem pySorted_nodup {l : List Str} (h : l.Nodup) : (pySorted l).Nodup := by
  unfold pySorted
  apply List.Nodup.map
  · intro a b hab
    cases a; cases b; exact congrArg String.mk hab
  · apply List.Perm.nodup (List.mergeSort_perm _ _).symm
    apply List.Nodup.map
    · intro a b hab
      simpa using congrArg String.data hab
    · exact h

theorem distinctCategories_nodup {α : Type} (bs : List (Business α)) :
    (distinctCategories bs).Nodup := List.nodup_dedup _

theorem distinctStatuses_nodup {α : Type} (bs : List (Business α)) :
    (distinctStatuses bs).Nodup := List.nodup_dedup _

theorem distinctCategories_ne_nil {α : Type} (bs : List (Business α)) :
    ∀ x ∈ distinctCategories bs, x ≠ [] := by
  intro x hx
  rw [distinctCategories, List.mem_dedup, List.mem_filter] at hx
  simpa using hx.2

theorem distinctStatuses_ne_nil {α : Type} (bs : List (Business α)) :
    ∀ x ∈ distinctStatuses bs, x ≠ [] := by
  intro x hx
  rw [distinctStatuses, List.mem_dedup, List.mem_filter] at hx
  simpa using hx.2

/-- `build_index_page` is a function of the parsed rows alone: however
the two Python sets are enumerated, the emitted document is identical. -/
theorem build_index_page_det {α : Type} (fmt : α → Str) (rnd : α → Nat)
    (bs : List (Business α)) (e₁ e₂ f₁ f₂ : List Str)
    (he₁ : e₁.Perm (distinctCategories bs)) (he₂ : e₂.Perm (distinctCategories bs))
    (hf₁ : f₁.Perm (distinctStatuses bs)) (hf₂ : f₂.Perm (distinctStatuses bs)) :
    build_index_page fmt rnd bs e₁ f₁ = build_index_page fmt rnd bs e₂ f₂ := by
  unfold build_index_page
  rw [pySorted_perm (he₁.trans he₂.symm), pySorted_perm (hf₁.trans hf₂.symm)]

end BuildSites

/-! ### The rating slot of the build-variant card -/

namespace BuildSites

/-- The build-variant card up to the rating slot (chunks verbatim from
`render_card`). -/
def ratingPre {α : Type} (b : Business α) : Str :=
  let status_text := Py.escape (Py.pyOr b.status statusDefault)
  let status_cls := status_class b.status
  let category := Py.escape b.category
  let address := Py.escape b.address
  let name := Py.escape b.name
  let image_tag :=
    "<img src=\"".data ++ Py.escape (Py.pyOr b.image_url placeholderImage) ++
      "\" alt=\"".data ++ name ++ "\" loading=\"lazy\" />".data
  "<article class=\"card\" data-name=\"".data ++ name ++
    "\" data-category=\"".data ++ category ++
    "\" data-address=\"".data ++ address ++
    "\" data-features=\"".data ++ Py.escape (Py.joinSep " ".data b.features) ++
    "\" data-status=\"".data ++ Py.escape (Py.pyOr b.status []) ++
    "\">\n  ".data ++ image_tag ++
    "\n  <div class=\"card-body\">\n    <div class=\"card-header\">\n      <span class=\"status ".data ++
    status_cls ++ "\">".data ++ status_text ++
    "</span>\n      <span class=\"rating\">".data

/-- The build-variant card after the rating slot (chunks verbatim from
`render_card`). -/
def ratingSuf {α : Type} (b : Business α) : Str :=
  let feature_chips := Py.joinSep [] ((b.features.take 4).map chip)
  let category := Py.escape b.category
  let address := Py.escape b.address
  let name := Py.escape b.name
  let phone_link := if Py.truthy b.phone then telAnchor (b.phone.getD []) else []
"</span>\n    </div>\n    <h2>".data ++ name ++
    "</h2>\n    <p class=\"meta\">".data ++ category ++
    "</p>\n    <p class=\"address\">".data ++ address ++
    "</p>\n    <div class=\"chips\">".data ++ feature_chips ++
    "</div>\n    <div class=\"actions\">\n      <a class=\"button\" href=\"./businesses/".data ++
    b.slug ++
    "/index.html\">æŸ¥çœ‹å°ˆå±¬é </a>\n      <a class=\"button-ghost\" href=\"".data ++
    Py.escape b.map_url ++
    "\" target=\"_blank\" rel=\"noreferrer\">Google åœ°åœ–</a>\n      ".data ++
    phone_link ++
    "\n    </div>\n  </div>\n</article>".data

theorem render_card_rating_split {α : Type} (fmt : α → Str) (rnd : α → Nat)
    (b : Business α) :
    render_card fmt rnd b =
      ratingPre b ++ Py.escape (formatted_rating fmt rnd b) ++ ratingSuf b := by
  unfold render_card ratingPre ratingSuf
  dsimp only
  simp only [List.append_assoc]

/-- A listing with an absent rating formats as the placeholder. -/
theorem formatted_rating_none {α : Type} (fmt : α → Str) (rnd : α → Nat)
    {b : Business α} (h : b.rating = none) : formatted_rating fmt rnd b = "--".data := by
  unfold formatted_rating
  rw [h]

/-- An empty or unparseable rating cell parses to `none`. -/
theorem mkBusiness_rating_none {α : Type} (u : UniModel) (pf : Str → Option α)
    (row : List Str) (idx : Nat) (seen : List Str)
    (h : Py.strip (row.getD 2 []) = [] ∨ pf (row.getD 2 []) = none) :
    (mkBusiness u pf row idx seen).rating = none := by
  show (if Py.strip (row.getD 2 []) = [] then none else pf (row.getD 2 [])) = none
  rcases h with h | h
  · rw [if_pos h]
  · split
    · rfl
    · exact h

end BuildSites

/-! ### The remaining renders: the build detail page and the scripts index -/

namespace Py

/-- `forall₂_map_map` over an arbitrary element type. -/
theorem forall₂_map_map_any {σ : Type} {f g : σ → Str}
    (h : ∀ x, countQ (f x) = countQ (g x)) :
    ∀ l : List σ, List.Forall₂ (fun a b => countQ a = countQ b) (l.map f) (l.map g) := by
  intro l
  induction l with
  | nil => exact List.Forall₂.nil
  | cons x xs ih => exact List.Forall₂.cons (h x) ih

/-- Two lists of constant quote count pair up whenever their lengths agree. -/
theorem forall₂_of_length {k : Nat} : ∀ {l₁ l₂ : List Str},
    (∀ x ∈ l₁, countQ x = k) → (∀ x ∈ l₂, countQ x = k) → l₁.length = l₂.length →
    List.Forall₂ (fun a b => countQ a = countQ b) l₁ l₂ := by
  intro l₁
  induction l₁ with
  | nil =>
    intro l₂ h₁ h₂ hl
    cases l₂ with
    | nil => exact List.Forall₂.nil
    | cons b t => simp at hl
  | cons a t ih =>
    intro l₂ h₁ h₂ hl
    cases l₂ with
    | nil => simp at hl
    | cons b t₂ =>
      refine List.Forall₂.cons ?_ (ih (fun x hx => h₁ x (List.mem_cons_of_mem _ hx))
        (fun x hx => h₂ x (List.mem_cons_of_mem _ hx)) (by simpa using hl))
      rw [h₁ a (List.mem_cons_self _ _), h₂ b (List.mem_cons_self _ _)]

end Py

namespace BuildSites

/-- `build_detail_page` (lines 632-693): the detail document of one
business (the markup only; the directory write is plumbing). -/
def build_detail_page {α : Type} (fmt : α → Str) (rnd : α → Nat) (b : Business α) : Str :=
  let features := if b.features = [] then ["\u00E5\u00B0\u0161\u00E6\u0153\u00AA\u00E6\u00E4\u00BE\u203A\u00E9\u00A1\u00E5\u00A4\u2013\u00E6\u0153\u00E5\u2039\u2122\u00E8\u00B3\u2021\u00E8\u00A8\u0160".data] else b.features
  let feature_items := Py.joinSep "\n".data (features.map chip)
  let phone_row :=
    if Py.truthy b.phone then
      "<div class=\"meta-row\">\u011F\u0178\u201C <span><a class=\"back-link\" href=\"tel:".data ++ Py.escape (b.phone.getD []) ++ "\">".data ++
        Py.escape (b.phone.getD []) ++ "</a></span></div>".data
    else "<div class=\"meta-row\">\u011F\u0178\u201C <span>\u00E6\u0153\u00AA\u00E6\u00E4\u00BE\u203A\u00E9\u203A\u00BB\u00E8\u00A9\u00B1</span></div>".data
  let rating_text := Py.escape (formatted_rating fmt rnd b)
  let status_text := Py.escape (Py.pyOr b.status "\u00E7\u2021\u0178\u00E6\u00A5\u00AD\u00E8\u00B3\u2021\u00E8\u00A8\u0160\u00E6\u0153\u00AA\u00E6\u00E4\u00BE\u203A".data)
  let hours_text := Py.escape (Py.pyOr b.hours "\u00E7\u2021\u0178\u00E6\u00A5\u00AD\u00E6\u2122\u201A\u00E9\u2013\u201C\u00E6\u0153\u00AA\u00E6\u00E4\u00BE\u203A".data)
  let map_link := Py.escape b.map_url
  let address := Py.escape b.address
  let image := Py.escape (Py.pyOr b.image_url "https://via.placeholder.com/800x450?text=Plumbing".data)
  let tel_action :=
    if Py.truthy b.phone then
      "<a class=\"button-call\" href=\"tel:".data ++ Py.escape (b.phone.getD []) ++ "\">\u00E7\u00AB\u2039\u00E5\u00B3\u00E6\u2019\u00A5\u00E6\u2030\u201C</a>".data
    else []
  "<!DOCTYPE html>\n<html lang=\"zh-Hant\">\n<head>\n  <meta charset=\"UTF-8\" />\n  <meta name=\"viewport\" content=\"width=device-width, initial-scale=1\" />\n  <title>".data ++
    Py.escape b.name ++
    " | \u00E6\u00B0\u00B4\u00E9\u203A\u00BB\u00E8\u00A1\u0152\u00E5\u00B0\u02C6\u00E5\u00B1\u00AC\u00E7\u00B6\u00B2\u00E7\u00AB\u2122</title>\n  <link rel=\"stylesheet\" href=\"../../assets/style.css\" />\n</head>\n<body>\n  <main style=\"max-width: 1100px; margin: 0 auto; padding: 24px;\">\n    <a class=\"back-link\" href=\"../../index.html\">\u00E2\u2020 \u00E8\u00BF\u201D\u00E5\u203A\u00E7\u00B8\u00BD\u00E8\u00A6\u00BD</a>\n    <section class=\"hero\">\n      <div style=\"display: grid; grid-template-columns: 1.2fr 1fr; gap: 18px; align-items: center;\">\n        <img src=\"".data ++
    image ++
    "\" alt=\"".data ++
    Py.escape b.name ++
    "\" style=\"width: 100%; border-radius: var(--radius); border: 1px solid var(--border);\" loading=\"lazy\" />\n        <div>\n          <p class=\"status ".data ++
    status_class b.status ++
    "\">".data ++
    status_text ++
    "</p>\n          <h1 style=\"margin: 10px 0 6px;\">".data ++
    Py.escape b.name ++
    "</h1>\n          <p class=\"meta\">".data ++
    Py.escape b.category ++
    "</p>\n          <p class=\"rating\">".data ++
    rating_text ++
    "</p>\n          <div class=\"chips\" style=\"margin-top: 10px;\">".data ++
    feature_items ++
    "</div>\n        </div>\n      </div>\n      <div class=\"actions\" style=\"margin-top: 16px;\">\n        <a class=\"button\" href=\"".data ++
    map_link ++
    "\" target=\"_blank\" rel=\"noreferrer\">\u00E5\u0153\u00A8 Google \u00E5\u0153\u00B0\u00E5\u0153\u2013\u00E9\u2013\u2039\u00E5\u2022\u0178</a>\n        ".data ++
    tel_action ++
    "\n      </div>\n    </section>\n\n    <section class=\"detail-layout\">\n      <div class=\"detail-card\">\n        <h3>\u00E8\u00AF\u00E7\u00B5\u00A1\u00E8\u02C6\u2021\u00E4\u00BD\u00E7\u00BD\u00AE</h3>\n        <div class=\"detail-meta\">\n          <div class=\"meta-row\">\u011F\u0178\u201C <span>".data ++
    address ++
    "</span></div>\n          ".data ++
    phone_row ++
    "\n          <div class=\"meta-row\">\u00E2\u00B1\u00EF\u00B8 <span>".data ++
    hours_text ++
    "</span></div>\n          <div class=\"meta-row\">\u011F\u0178\u2014\u00BA\u00EF\u00B8 <span><a class=\"back-link\" href=\"".data ++
    map_link ++
    "\" target=\"_blank\" rel=\"noreferrer\">\u00E6\u0178\u00A5\u00E7\u0153\u2039\u00E5\u0153\u00B0\u00E5\u0153\u2013\u00E8\u00B7\u00AF\u00E7\u00B7\u0161</a></span></div>\n        </div>\n      </div>\n      <div class=\"detail-card\">\n        <h3>\u00E6\u0153\u00E5\u2039\u2122\u00E4\u00BA\u00AE\u00E9\u00BB</h3>\n        <div class=\"feature-list\">".data ++
    feature_items ++
    "</div>\n      </div>\n    </section>\n  </main>\n</body>\n</html>\n".data

theorem countQ_chips_line (sep : Str) (F : List Str) :
    Py.countQ (Py.joinSep sep (List.map chip (List.map Py.replQ F))) =
      Py.countQ (Py.joinSep sep (List.map chip F)) := by
  rw [List.map_map]
  exact Py.countQ_forall₂ _ (Py.forall₂_map_map (fun x => countQ_chip_replQ x) F)

/-- The detail page of `build_sites.py` is quote-count invariant under
quote replacement in every claimed field: each one passes through
`html.escape` (the phone in both the tel: href and its label). -/
theorem build_detail_page_replQ {α : Type} (fmt : α → Str) (rnd : α → Nat)
    (b : Business α) :
    Py.countQ (build_detail_page fmt rnd (replB b)) =
      Py.countQ (build_detail_page fmt rnd b) := by
  unfold build_detail_page
  simp only [replB_name, replB_map_url, replB_category, replB_address, replB_status,
    replB_phone, replB_image_url, replB_features, formatted_rating_replB,
    status_class_replQO, Py.truthy_replQO, Py.replQO_getD]
  have hfe : (if List.map Py.replQ b.features = [] then
        ["å°šæœªæä¾›é¡å¤–æœå‹™è³‡è¨Š".data] else List.map Py.replQ b.features) =
      List.map Py.replQ (if b.features = [] then
        ["å°šæœªæä¾›é¡å¤–æœå‹™è³‡è¨Š".data] else b.features) := by
    by_cases hf : b.features = []
    · rw [hf]
      rfl
    · rw [if_neg hf, if_neg (by simpa using hf)]
  rw [hfe]
  simp only [Py.countQ_append, Py.countQ_escape, apply_ite Py.countQ, countQ_chips_line]

end BuildSites

namespace Scripts

theorem replStore_slug (st : Store) : (replStore st).slug = st.slug := rfl

/-- The conditional map button of the index card of `_render_index`
(lines 165-169). -/
def indexMapButton (u : Str) : Str :=
  "<a class=\"button secondary\" href=\"".data ++ Py.escape u ++
    "\" target=\"_blank\" rel=\"noopener\">Google 地圖</a>".data

/-- One index card of `_render_index` (lines 132-171). -/
def render_index_card (store : Store) : Str :=
  "\n        <article class=\"card\" data-name=\"".data ++
    Py.escape store.name ++
    "\" data-category=\"".data ++
    Py.escape (Py.pyOr store.category []) ++
    "\" data-address=\"".data ++
    Py.escape (Py.pyOr store.address []) ++
    "\">\n            <div class=\"card-image\" style=\"background-image:url(\x27".data ++
    Py.escape (Py.pyOr store.image_url []) ++
    "\x27);\" aria-hidden=\"true\"></div>\n            <div class=\"card-body\">\n                <div class=\"card-header\">\n                    <h2>".data ++
    Py.escape store.name ++
    "</h2>\n                    <p class=\"card-meta\">".data ++
    Py.escape (Py.pyOr store.category "服務類別未提供".data) ++
    "</p>\n                </div>\n                <p class=\"card-rating\">".data ++
    Py.escape (Py.pyOr store.rating "無評分".data) ++
    " \u2B50 | ".data ++
    Py.escape (if store.reviews = [] then "0".data else store.reviews) ++
    " \u5247\u8A55\u8AD6</p>\n                <p class=\"card-address\">📍 ".data ++
    Py.escape (Py.pyOr store.address "未提供地址".data) ++
    "</p>\n                <p class=\"card-status\">".data ++
    Py.escape (Py.pyOr store.status "營業資訊未提供".data) ++
    " ".data ++
    Py.escape (Py.pyOr store.hours []) ++
    "</p>\n                <div class=\"card-actions\">\n                    <a class=\"button primary\" href=\"stores/".data ++
    store.slug ++
    ".html\">\u67E5\u770B\u5E97\u5BB6</a>\n                    ".data ++
    (if Py.truthy store.map_url then indexMapButton (store.map_url.getD []) else []) ++
    "\n                </div>\n            </div>\n        </article>\n        ".data

/-- `_render_index` (lines 130-244): the full index page. -/
def _render_index (stores : List Store) : Str :=
  let cards := Py.joinSep [] (stores.map render_index_card)
  "\n<!doctype html>\n<html lang=\"zh-Hant\">\n<head>\n    <meta charset=\"utf-8\">\n    <meta name=\"viewport\" content=\"width=device-width, initial-scale=1\">\n    <title>\u6C34\u96FB\u884C\u7D22\u5F15 | GitHub Pages</title>\n    <link rel=\"stylesheet\" href=\"assets/styles.css\">\n</head>\n<body>\n    <header class=\"hero\">\n        <div class=\"hero__content\">\n            <p class=\"eyebrow\">\u53F0\u4E2D\u6C34\u96FB\u8CC7\u8A0A\u532F\u7E3D</p>\n            <h1>\u6C34\u96FB\u884C\u4E00\u89BD</h1>\n            <p class=\"lede\">\u5728 GitHub Pages \u4E0A\u5FEB\u901F\u700F\u89BD 64 \u5BB6\u6C34\u96FB\u884C\uFF0C\u67E5\u770B\u8A55\u50F9\u3001\u5730\u5740\u3001\u71DF\u696D\u72C0\u614B\u8207\u806F\u7D61\u65B9\u5F0F\u3002</p>\n            <div class=\"search\">\n                <label for=\"search-box\">\u641C\u5C0B\u5E97\u5BB6</label>\n                <input id=\"search-box\" type=\"search\" placeholder=\"\u8F38\u5165\u540D\u7A31\u3001\u5730\u5740\u6216\u670D\u52D9\u95DC\u9375\u5B57\" autocomplete=\"off\">\n                <p class=\"search__hint\">\u5373\u6642\u7BE9\u9078\u5361\u7247\u4EE5\u627E\u5230\u9644\u8FD1\u7684\u6C34\u96FB\u670D\u52D9\u3002</p>\n            </div>\n        </div>\n    </header>\n\n    <main class=\"content\">\n        <section class=\"summary\">\n            <p id=\"result-count\">\u5171 ".data ++
    Py.decStr stores.length ++
    " \u5BB6\u5E97\u5BB6</p>\n            <a class=\"button secondary\" href=\"https://github.com/\" target=\"_blank\" rel=\"noopener\">GitHub Pages \u8AAA\u660E</a>\n        </section>\n        <section id=\"cards\" class=\"card-grid\">\n            ".data ++
    cards ++
    "\n        </section>\n        <p id=\"empty-state\" class=\"empty\" hidden>\u627E\u4E0D\u5230\u7B26\u5408\u7684\u5E97\u5BB6\uFF0C\u8ACB\u5617\u8A66\u5176\u4ED6\u95DC\u9375\u5B57\u3002</p>\n    </main>\n\n    <script>\n    const cards = Array.from(document.querySelectorAll(\x27.card\x27));\n    const searchBox = document.getElementById(\x27search-box\x27);\n    const resultCount = document.getElementById(\x27result-count\x27);\n    const emptyState = document.getElementById(\x27empty-state\x27);\n\n    function normalize(text) \x7b\n        return text.toLowerCase();\n    \x7d\n\n    function filterCards() \x7b\n        const term = normalize(searchBox.value.trim());\n        let visible = 0;\n        cards.forEach(card => \x7b\n            const haystack = [\n                card.dataset.name,\n                card.dataset.category,\n                card.dataset.address,\n            ].join(\x27 \x27).toLowerCase();\n            const match = !term || haystack.includes(term);\n            card.style.display = match ? \x27\x27 : \x27none\x27;\n            if (match) visible += 1;\n        \x7d);\n        resultCount.textContent = \x27\u5171 \x27 + visible + \x27 \u5BB6\u5E97\u5BB6\x27;\n        emptyState.hidden = visible !== 0;\n    \x7d\n\n    searchBox.addEventListener(\x27input\x27, filterCards);\n    </script>\n</body>\n</html>\n".data

theorem countQ_indexMapButton_replQ (u : Str) :
    Py.countQ (indexMapButton (Py.replQ u)) = Py.countQ (indexMapButton u) := by
  unfold indexMapButton
  simp only [Py.countQ_append, Py.countQ_escape]

theorem countQ_render_index_card_replStore (st : Store) :
    Py.countQ (render_index_card (replStore st)) = Py.countQ (render_index_card st) := by
  unfold render_index_card
  simp only [replStore_name, replStore_map_url, replStore_category, replStore_address,
    replStore_status, replStore_hours, replStore_image_url, replStore_rating,
    replStore_reviews, replStore_slug, Py.truthy_replQO, Py.replQO_getD]
  simp only [Py.countQ_append, Py.countQ_escape, apply_ite Py.countQ,
    countQ_indexMapButton_replQ]

/-- The index page of `scripts/generate_sites.py` is quote-count invariant
under quote replacement in the claimed fields of every store: each
interpolated value passes through `html.escape`. -/
theorem render_index_replStore (stores : List Store) :
    Py.countQ (_render_index (stores.map replStore)) =
      Py.countQ (_render_index stores) := by
  unfold _render_index
  dsimp only
  rw [List.length_map, List.map_map]
  have hc : Py.countQ (Py.joinSep [] (stores.map (render_index_card ∘ replStore))) =
      Py.countQ (Py.joinSep [] (stores.map render_index_card)) :=
    Py.countQ_forall₂ []
      (Py.forall₂_map_map_any (fun st => countQ_render_index_card_replStore st) stores)
  simp only [Py.countQ_append, hc]

/-- The store page up to the phone-button slot (chunks verbatim from
`_render_store`; nothing here reads the phone). -/
def phoneStoreA (store : Store) : Str :=
  let title := Py.escape store.name
  let address := Py.escape (Py.pyOr store.address "未提供地址".data)
  "\n<!doctype html>\n<html lang=\"zh-Hant\">\n<head>\n    <meta charset=\"utf-8\">\n    <meta name=\"viewport\" content=\"width=device-width, initial-scale=1\">\n    <title>".data ++
    title ++
    " | 水電行介紹</title>\n    <link rel=\"stylesheet\" href=\"../assets/styles.css\">\n</head>\n<body>\n    <nav class=\"top-bar\">\n        <a href=\"../index.html\" class=\"back-link\">← 返回列表</a>\n        <span class=\"brand\">GitHub Pages</span>\n    </nav>\n    <header class=\"store-hero\">\n        <div class=\"store-hero__image\" style=\"background-image:url(\x27".data ++
    Py.escape (Py.pyOr store.image_url []) ++
    "\x27);\"></div>\n        <div class=\"store-hero__body\">\n            <p class=\"eyebrow\">".data ++
    Py.escape (Py.pyOr store.category "服務類別未提供".data) ++
    "</p>\n            <h1>".data ++ title ++
    "</h1>\n            <p class=\"lede\">".data ++ address ++
    "</p>\n            <div class=\"meta\">\n                <span>⭐ ".data ++
    Py.escape (Py.pyOr store.rating "無評分".data) ++
    "</span>\n                <span>".data ++
    Py.escape (if store.reviews = [] then "0".data else store.reviews) ++
    " 則評論</span>\n                <span>".data ++
    Py.escape (Py.pyOr store.status "營業資訊未提供".data) ++
    "</span>\n                <span>".data ++
    Py.escape (Py.pyOr store.hours []) ++
    "</span>\n            </div>\n            <div class=\"actions\">\n                ".data

/-- The store page between the phone-button slot and the phone label of
the contact list. -/
def phoneStoreB (store : Store) : Str :=
  let badges := Py.joinSep [] (store.badges.map (fun b =>
    "<span class=\"badge\">".data ++ Py.escape b ++ "</span>".data))
  let highlights := Py.joinSep [] (store.highlights.map (fun t =>
    "<li>".data ++ Py.escape t ++ "</li>".data))
  let map_button := if Py.truthy store.map_url then mapButton (store.map_url.getD []) else []
  let ad_link := if Py.truthy store.ad_link then adButton (store.ad_link.getD []) else []
  let highlight_block :=
    if highlights ≠ [] then
      "<ul class=\"highlight-list\">".data ++ highlights ++ "</ul>".data
    else "<p>尚無補充描述。</p>".data
  "\n                ".data ++ map_button ++
    "\n                ".data ++ ad_link ++
    "\n            </div>\n            <div class=\"badges\">".data ++ badges ++
    "</div>\n        </div>\n    </header>\n\n    <main class=\"content content--narrow\">\n        <section class=\"panel\">\n            <h2>店家重點</h2>\n            ".data ++
    highlight_block ++
    "\n        </section>\n        <section class=\"panel\">\n            <h2>聯絡資訊</h2>\n            <dl class=\"info\">\n                <div><dt>電話</dt><dd>".data

/-- The store page after the phone label. -/
def phoneStoreC (store : Store) : Str :=
  let address := Py.escape (Py.pyOr store.address "未提供地址".data)
  let map_link :=
    if Py.truthy store.map_url then
      "<a href=\"".data ++ Py.escape (store.map_url.getD []) ++
        "\" target=\"_blank\" rel=\"noopener\">前往</a>".data
    else "未提供".data
  let ad_link_short :=
    if Py.truthy store.ad_link then
      "<a href=\"".data ++ Py.escape (store.ad_link.getD []) ++
        "\" target=\"_blank\" rel=\"noopener\">造訪</a>".data
    else "未提供".data
  "</dd></div>\n                <div><dt>地址</dt><dd>".data ++ address ++
    "</dd></div>\n                <div><dt>Google 地圖</dt><dd>".data ++ map_link ++
    "</dd></div>\n                <div><dt>廣告/官網</dt><dd>".data ++ ad_link_short ++
    "</dd></div>\n            </dl>\n        </section>\n    </main>\n</body>\n</html>\n".data

/-- In `_render_store`, a missing phone omits the phone button entirely and
renders the textual placeholder in the contact list; a present phone
inserts exactly the escaped button and the escaped label, between the same
surrounding chunks. -/
theorem render_store_phone_split (st : Store) :
    _render_store { st with phone := none } =
      phoneStoreA st ++ phoneStoreB st ++ "未提供".data ++ phoneStoreC st ∧
    ∀ p, p ≠ [] → _render_store { st with phone := some p } =
      phoneStoreA st ++ phoneButton p ++ phoneStoreB st ++
        Py.escape p ++ phoneStoreC st := by
  have hesc : Py.escape "未提供".data = "未提供".data := by decide
  constructor
  · unfold _render_store phoneStoreA phoneStoreB phoneStoreC Py.pyOr
    have h0 : Py.truthy (none : Option Str) = false := rfl
    dsimp only
    rw [h0]
    simp only [Bool.false_eq_true, if_false, hesc, List.append_assoc, List.nil_append,
      List.append_nil]
  · intro p hp
    unfold _render_store phoneStoreA phoneStoreB phoneStoreC Py.pyOr
    have ht : Py.truthy (some p) = true := by simp [Py.truthy, hp]
    dsimp only
    rw [ht]
    simp only [Option.getD_some, if_true, List.append_assoc, List.nil_append,
      List.append_nil]

end Scripts

namespace GenSites

/-- `write_index` (lines 405-438): the gen-variant index page markup
(the file write is plumbing). -/
def write_index {α : Type} (fmt : α → Str) (shops : List (Shop α)) : Str :=
  let cards := Py.joinSep "\n".data (shops.map (render_card fmt))
  "<!DOCTYPE html>\n<html lang=\"zh-Hant\">\n<head>\n  <meta charset=\"UTF-8\">\n  <meta name=\"viewport\" content=\"width=device-width, initial-scale=1\">\n  <title>\u53F0\u4E2D\u6C34\u96FB\u884C\u7D22\u5F15</title>\n  <link rel=\"stylesheet\" href=\"assets/styles.css\">\n</head>\n<body class=\"page\">\n  <header class=\"hero\">\n    <div class=\"hero__content\">\n      <p class=\"pill\">GitHub Pages \u5C08\u6848</p>\n      <h1 class=\"hero__title\">\u53F0\u4E2D\u6C34\u96FB\u670D\u52D9\u5730\u5716</h1>\n      <p class=\"hero__subtitle\">\u5171 ".data ++
    Py.decStr shops.length ++
    " \u9593\u6C34\u96FB\u884C\uFF0C\u6BCF\u9593\u90FD\u6709\u5C08\u5C6C\u7684\u7C21\u4ECB\u9801\u9762\u8207\u806F\u7D61\u65B9\u5F0F\u3002</p>\n      <div class=\"hero__stats\">\n        <span class=\"pill\">\u2699\uFE0F \u71DF\u696D\u72C0\u614B\u4E00\u89BD</span>\n        <span class=\"pill\">📞 \u96FB\u8A71\u3001\u5730\u5716\u3001\u7279\u8272\u670D\u52D9</span>\n        <span class=\"pill\">🛠\uFE0F GitHub Pages \u53EF\u76F4\u63A5\u90E8\u7F72</span>\n      </div>\n    </div>\n  </header>\n  <main class=\"content\">\n    <section class=\"grid\">\n      ".data ++
    cards ++
    "\n    </section>\n  </main>\n  <footer class=\"footer\">\u7531 CSV \u8CC7\u6599\u81EA\u52D5\u7522\u751F\uFF0C\u9069\u7528\u65BC GitHub Pages\u3002</footer>\n</body>\n</html>\n".data

/-- The index page of `generate_sites.py` is quote-count invariant under
quote replacement in the claimed fields of every shop: the only
interpolations are the escaped cards and the shop count. -/
theorem write_index_replQ {α : Type} (fmt : α → Str) (shops : List (Shop α)) :
    Py.countQ (write_index fmt (shops.map replSAll)) =
      Py.countQ (write_index fmt shops) := by
  unfold write_index
  dsimp only
  rw [List.length_map]
  have hc : Py.countQ (Py.joinSep "\n".data
        (List.map (render_card fmt) (List.map replSAll shops))) =
      Py.countQ (Py.joinSep "\n".data (List.map (render_card fmt) shops)) := by
    apply Py.countQ_forall₂
    rw [List.map_map]
    exact Py.forall₂_map_map_any (fun s => render_cardG_replQ fmt s) shops
  simp only [Py.countQ_append, hc]

end GenSites

namespace BuildSites

theorem countQ_optionLine (v : Str) : Py.countQ (optionLine v) = 2 := by
  unfold optionLine
  simp only [Py.countQ_append, Py.countQ_escape]
  decide

theorem length_pySorted (l : List Str) : (pySorted l).length = l.length := by
  unfold pySorted
  rw [List.length_map, (List.mergeSort_perm _ _).length_eq, List.length_map]

theorem countQ_option_block (l₁ l₂ : List Str) (hl : l₁.length = l₂.length) :
    Py.countQ (Py.joinSep "\n".data (l₁.map optionLine)) =
      Py.countQ (Py.joinSep "\n".data (l₂.map optionLine)) := by
  apply Py.countQ_forall₂
  apply Py.forall₂_of_length (k := 2)
  · intro x hx
    obtain ⟨v, -, rfl⟩ := List.mem_map.mp hx
    exact countQ_optionLine v
  · intro x hx
    obtain ⟨v, -, rfl⟩ := List.mem_map.mp hx
    exact countQ_optionLine v
  · rw [List.length_map, List.length_map, hl]

/-- The index page of `build_sites.py` is quote-count invariant under quote
replacement in the claimed fields of every business and in the two
enumerated option sets: the cards escape every field, and each option line
contributes the same two quotes whatever its escaped value. -/
theorem build_index_page_replQ {α : Type} (fmt : α → Str) (rnd : α → Nat)
    (bs : List (Business α)) (catEnum statEnum : List Str) :
    Py.countQ (build_index_page fmt rnd (bs.map replB)
        (catEnum.map Py.replQ) (statEnum.map Py.replQ)) =
      Py.countQ (build_index_page fmt rnd bs catEnum statEnum) := by
  unfold build_index_page
  dsimp only
  rw [List.length_map]
  have hc : Py.countQ (Py.joinSep "\n".data
        (List.map (render_card fmt rnd) (List.map replB bs))) =
      Py.countQ (Py.joinSep "\n".data (List.map (render_card fmt rnd) bs)) := by
    apply Py.countQ_forall₂
    rw [List.map_map]
    exact Py.forall₂_map_map_any (fun b => render_card_replQ fmt rnd b) bs
  have hcat : Py.countQ (Py.joinSep "\n".data
        ((pySorted (catEnum.map Py.replQ)).map optionLine)) =
      Py.countQ (Py.joinSep "\n".data ((pySorted catEnum).map optionLine)) :=
    countQ_option_block _ _ (by rw [length_pySorted, length_pySorted, List.length_map])
  have hstat : Py.countQ (Py.joinSep "\n".data
        ((pySorted (statEnum.map Py.replQ)).map optionLine)) =
      Py.countQ (Py.joinSep "\n".data ((pySorted statEnum).map optionLine)) :=
    countQ_option_block _ _ (by rw [length_pySorted, length_pySorted, List.length_map])
  simp only [Py.countQ_append, hc, hcat, hstat]

end BuildSites

/-! ### The claims

One theorem per claim of the specification, stated over the embeddings
above.  Concrete listings used by the witnesses follow first. -/

/-- A minimal concrete build-variant business (empty map URL, no phone). -/
def wBusiness : BuildSites.Business Unit :=
  { slug := "s".data, name := "n".data, map_url := [], rating := none,
    review_count := none, category := [], address := [], status := none,
    hours := none, phone := none, image_url := none, features := [] }

/-- A minimal concrete generate-variant shop. -/
def wShop : GenSites.Shop Unit :=
  { slug := "s".data, name := "n".data, map_url := "#".data, rating := none,
    review_count := none, category := none, address := none, status := none,
    hours := none, phone := none, image_url := none, highlights := [],
    sponsored := false }

/-- A minimal concrete scripts-variant store. -/
def wStore : Scripts.Store :=
  { slug := "s".data, name := "n".data, map_url := none, rating := none,
    reviews := [], category := none, address := none, status := none,
    hours := none, phone := none, image_url := none, badges := [],
    highlights := [], ad_link := none }

/-- Two concrete businesses with categories "b" and "a" and one truthy
status, for the index-determinism witness. -/
def wBusinesses : List (BuildSites.Business Unit) :=
  [{ slug := [], name := [], map_url := [], rating := none, review_count := none,
     category := "b".data, address := [], status := some "s".data, hours := none,
     phone := none, image_url := none, features := [] },
   { slug := [], name := [], map_url := [], rating := none, review_count := none,
     category := "a".data, address := [], status := none, hours := none,
     phone := none, image_url := none, features := [] }]

/-- C1 (amended): every user-supplied field interpolated by the render
operations — the build index page and detail page, the generate index page
and detail page, and the scripts index and detail pages — passes through
HTML escaping, except the phone inside the tel: href of
`generate_sites.py`'s `write_shop_page`, which is pasted raw (its label on
the same page is escaped, as the phone-split conjunct shows).  Escaping is
captured as quote-count invariance: replacing every `"` by `x` in the
claimed fields (`replB`, `replSAll`, `replStore`; `replS` leaves the phone
untouched) never changes the number of `"` characters in the emitted
markup, because `html.escape` maps `"` to `&quot;`. -/
theorem claim_C1_escape_invariance {α : Type} (fmt : α → Str) (rnd : α → Nat)
    (b : BuildSites.Business α) (bs : List (BuildSites.Business α))
    (catEnum statEnum : List Str) (s : GenSites.Shop α)
    (shops : List (GenSites.Shop α)) (st : Scripts.Store)
    (stores : List Scripts.Store) (p : Str) (hp : p ≠ []) :
    Py.countQ (BuildSites.render_card fmt rnd (BuildSites.replB b)) =
      Py.countQ (BuildSites.render_card fmt rnd b) ∧
    Py.countQ (BuildSites.build_detail_page fmt rnd (BuildSites.replB b)) =
      Py.countQ (BuildSites.build_detail_page fmt rnd b) ∧
    Py.countQ (BuildSites.build_index_page fmt rnd (bs.map BuildSites.replB)
        (catEnum.map Py.replQ) (statEnum.map Py.replQ)) =
      Py.countQ (BuildSites.build_index_page fmt rnd bs catEnum statEnum) ∧
    Py.countQ (GenSites.write_index fmt (shops.map GenSites.replSAll)) =
      Py.countQ (GenSites.write_index fmt shops) ∧
    Py.countQ (GenSites.render_card fmt (GenSites.replSAll s)) =
      Py.countQ (GenSites.render_card fmt s) ∧
    Py.countQ (GenSites.write_shop_page fmt (GenSites.replS s)) =
      Py.countQ (GenSites.write_shop_page fmt s) ∧
    (GenSites.write_shop_page fmt { s with phone := some p } =
      GenSites.shopPageA fmt s ++ Py.escape p ++ GenSites.shopPageB s ++
        (GenSites.telAction ("tel:".data ++ p) ++ "\n        ".data ++
          GenSites.mapAction s.map_url) ++ GenSites.shopPageC s) ∧
    Py.countQ (Scripts._render_store (Scripts.replStore st)) =
      Py.countQ (Scripts._render_store st) ∧
    Py.countQ (Scripts._render_index (stores.map Scripts.replStore)) =
      Py.countQ (Scripts._render_index stores) :=
  ⟨BuildSites.render_card_replQ fmt rnd b,
    BuildSites.build_detail_page_replQ fmt rnd b,
    BuildSites.build_index_page_replQ fmt rnd bs catEnum statEnum,
    GenSites.write_index_replQ fmt shops,
    GenSites.render_cardG_replQ fmt s,
    GenSites.write_shop_page_replQ fmt s,
    (GenSites.write_shop_page_phone_split fmt s).2 p hp,
    Scripts.render_store_replQ st,
    Scripts.render_index_replStore stores⟩

/-- C1, witness: the concrete listings at phone "5". -/
theorem claim_C1_witness :
    ("5".data ≠ ([] : Str)) ∧
    (Py.countQ (BuildSites.render_card (fun _ : Unit => []) (fun _ : Unit => 0)
        (BuildSites.replB wBusiness)) =
      Py.countQ (BuildSites.render_card (fun _ : Unit => []) (fun _ : Unit => 0) wBusiness) ∧
    Py.countQ (BuildSites.build_detail_page (fun _ : Unit => []) (fun _ : Unit => 0)
        (BuildSites.replB wBusiness)) =
      Py.countQ (BuildSites.build_detail_page (fun _ : Unit => []) (fun _ : Unit => 0) wBusiness) ∧
    Py.countQ (BuildSites.build_index_page (fun _ : Unit => []) (fun _ : Unit => 0)
        ([wBusiness].map BuildSites.replB)
        (["c".data].map Py.replQ) (["s".data].map Py.replQ)) =
      Py.countQ (BuildSites.build_index_page (fun _ : Unit => []) (fun _ : Unit => 0)
        [wBusiness] ["c".data] ["s".data]) ∧
    Py.countQ (GenSites.write_index (fun _ : Unit => []) ([wShop].map GenSites.replSAll)) =
      Py.countQ (GenSites.write_index (fun _ : Unit => []) [wShop]) ∧
    Py.countQ (GenSites.render_card (fun _ : Unit => []) (GenSites.replSAll wShop)) =
      Py.countQ (GenSites.render_card (fun _ : Unit => []) wShop) ∧
    Py.countQ (GenSites.write_shop_page (fun _ : Unit => []) (GenSites.replS wShop)) =
      Py.countQ (GenSites.write_shop_page (fun _ : Unit => []) wShop) ∧
    (GenSites.write_shop_page (fun _ : Unit => []) { wShop with phone := some "5".data } =
      GenSites.shopPageA (fun _ : Unit => []) wShop ++ Py.escape "5".data ++
        GenSites.shopPageB wShop ++
        (GenSites.telAction ("tel:".data ++ "5".data) ++ "\n        ".data ++
          GenSites.mapAction wShop.map_url) ++ GenSites.shopPageC wShop) ∧
    Py.countQ (Scripts._render_store (Scripts.replStore wStore)) =
      Py.countQ (Scripts._render_store wStore) ∧
    Py.countQ (Scripts._render_index ([wStore].map Scripts.replStore)) =
      Py.countQ (Scripts._render_index [wStore])) :=
  ⟨by decide,
    claim_C1_escape_invariance (fun _ : Unit => []) (fun _ : Unit => 0)
      wBusiness [wBusiness] ["c".data] ["s".data] wShop [wShop] wStore [wStore]
      "5".data (by decide)⟩

/-- C1, counterexample: a shop whose phone is the one-character string `"`
yields a `write_shop_page` output whose quote count changes when the quote
in the claimed fields is replaced — the phone reaches the tel: href
unescaped, so the original claim (no untrusted value appears unescaped
anywhere) fails on `src/generate_sites.py`. -/
theorem claim_C1_counterexample :
    Py.countQ (GenSites.write_shop_page (fun _ : Unit => [])
        (GenSites.replSAll
          { slug := "s".data, name := "n".data, map_url := "#".data, rating := none,
            review_count := none, category := none, address := none, status := none,
            hours := none, phone := some "\"".data, image_url := none,
            highlights := [], sponsored := false })) ≠
    Py.countQ (GenSites.write_shop_page (fun _ : Unit => [])
        { slug := "s".data, name := "n".data, map_url := "#".data, rating := none,
          review_count := none, category := none, address := none, status := none,
          hours := none, phone := some "\"".data, image_url := none,
          highlights := [], sponsored := false }) := by
  decide

/-- C2: within one run the allocated slugs are pairwise distinct — the
row loops of `build_sites.py` and `generate_sites.py` produce duplicate-free
slug lists, the scripts-variant store allocator never returns a slug already
in the visited set, and the shared allocation step `allocSlug` (which keeps
extending a colliding candidate) never returns a member of the visited set. -/
theorem claim_C2_slug_unique {α : Type} (u : UniModel) (nfkd nfkd2 : Str → Str)
    (pf : Str → Option α) (rows grows : List (List Str)) (srow : Scripts.Row)
    (index : Nat) (existing : List Str) (base : Str) :
    ((BuildSites.parse_businesses u pf rows).map BuildSites.Business.slug).Nodup ∧
    ((GenSites.build_shops nfkd pf grows).map GenSites.Shop.slug).Nodup ∧
    (Scripts.mkStore nfkd2 srow index existing).slug ∉ existing ∧
    Py.allocSlug base existing ∉ existing := by
  refine ⟨(BuildSites.parseRows_fresh_nodup u pf rows 1 []).2,
    (GenSites.buildShopsGo_fresh_nodup nfkd pf grows 0 []).2, ?_,
    Py.allocSlug_not_mem base existing⟩
  show Py.allocSlug _ _ ∉ existing
  exact Py.allocSlug_not_mem _ _

/-- C3 (amended): a feature cell containing the advertising marker sets the
generate-variant shop's sponsorship flag and never reaches its highlight
list; in the build variant (whose `Business` carries no sponsorship flag at
all) such a cell is rejected by `clean_feature`, so no collected feature
contains the marker. -/
theorem claim_C3_ad_marker {α : Type} (u : UniModel) (nfkd : Str → Str)
    (pf pf2 : Str → Option α) (row : List Str) (index : Nat) (used : List Str)
    (v : Str) (hv : GenSites.adMarker <:+: v) (hmem : v ∈ row.drop 11)
    (brow : List Str) (bidx : Nat) (bseen : List Str)
    (cell : Str) (hc : BuildSites.adMarker <:+: cell) :
    (GenSites.mkShop nfkd pf row index used).sponsored = true ∧
    (∀ x ∈ (GenSites.mkShop nfkd pf row index used).highlights,
      ¬ GenSites.adMarker <:+: x) ∧
    BuildSites.clean_feature u cell = none ∧
    (∀ x ∈ (BuildSites.mkBusiness u pf2 brow bidx bseen).features,
      ¬ BuildSites.adMarker <:+: x) := by
  refine ⟨?_, ?_, BuildSites.clean_feature_marker u hc, ?_⟩
  · show (GenSites.collect_highlights (row.drop 11)).2 = true
    exact GenSites.collectGo_marker hv (row.drop 11) [] false hmem
  · intro x hx
    have hx2 : x ∈ (GenSites.collect_highlights (row.drop 11)).1 := hx
    exact (GenSites.collectGo_mem (row.drop 11) [] false (by simp) x hx2).2.2
  · intro x hx
    have hx2 : x ∈ BuildSites.collectFeatures u (brow.drop 11) [] := hx
    exact BuildSites.collectFeatures_no_marker u (brow.drop 11) [] (by simp) x hx2

/-- C3, witness: a concrete row whose twelfth cell is the bare marker. -/
theorem claim_C3_witness :
    GenSites.adMarker <:+: "贊助商廣告".data ∧
    "贊助商廣告".data ∈ (List.replicate 11 [] ++ ["贊助商廣告".data] : List Str).drop 11 ∧
    BuildSites.adMarker <:+: BuildSites.adMarker ∧
    ((GenSites.mkShop id (fun _ : Str => (none : Option Unit))
        (List.replicate 11 [] ++ ["贊助商廣告".data]) 0 []).sponsored = true ∧
     (∀ x ∈ (GenSites.mkShop id (fun _ : Str => (none : Option Unit))
        (List.replicate 11 [] ++ ["贊助商廣告".data]) 0 []).highlights,
        ¬ GenSites.adMarker <:+: x) ∧
     BuildSites.clean_feature ucdSample BuildSites.adMarker = none ∧
     (∀ x ∈ (BuildSites.mkBusiness ucdSample (fun _ : Str => (none : Option Unit))
        [] 1 []).features, ¬ BuildSites.adMarker <:+: x)) :=
  ⟨by decide, by decide, by decide,
    claim_C3_ad_marker ucdSample id (fun _ : Str => (none : Option Unit))
      (fun _ : Str => (none : Option Unit))
      (List.replicate 11 [] ++ ["贊助商廣告".data]) 0 []
      "贊助商廣告".data (by decide) (by decide) [] 1 [] BuildSites.adMarker (by decide)⟩

unseal Py.decStr Py.suffixLoop in
/-- C3, counterexample: in `build_sites.py` there is no sponsorship flag to
set — a row whose only feature cell contains the advertising marker parses
to exactly the same `Business` as the row without that cell, so the marker
does not "set the resulting listing's sponsorship flag to true" in this
variant; it is merely discarded. -/
theorem claim_C3_counterexample :
    BuildSites.mkBusiness ucdSample (fun _ : Str => (none : Option Unit))
        (List.replicate 11 [] ++ ["xå»£å‘Šx".data]) 1 [] =
      BuildSites.mkBusiness ucdSample (fun _ : Str => (none : Option Unit))
        (List.replicate 11 []) 1 [] ∧
    (BuildSites.mkBusiness ucdSample (fun _ : Str => (none : Option Unit))
        (List.replicate 11 [] ++ ["xå»£å‘Šx".data]) 1 []).features = [] :=
  ⟨rfl, rfl⟩

/-- C4: a row whose rating cell is blank or fails float parsing yields a
business with `rating = none`, whose formatted rating is exactly the
placeholder `--` (never `0.0`), and whose rendered card contains that
placeholder in the rating slot. -/
theorem claim_C4_rating_placeholder {α : Type} (u : UniModel) (pf : Str → Option α)
    (fmt : α → Str) (rnd : α → Nat) (row : List Str) (idx : Nat) (seen : List Str)
    (h : Py.strip (row.getD 2 []) = [] ∨ pf (row.getD 2 []) = none) :
    (BuildSites.mkBusiness u pf row idx seen).rating = none ∧
    BuildSites.formatted_rating fmt rnd (BuildSites.mkBusiness u pf row idx seen) =
      "--".data ∧
    "--".data ≠ "0.0".data ∧
    ∃ pre suf, BuildSites.render_card fmt rnd (BuildSites.mkBusiness u pf row idx seen) =
      pre ++ "--".data ++ suf := by
  have h1 := BuildSites.mkBusiness_rating_none u pf row idx seen h
  have h2 := BuildSites.formatted_rating_none fmt rnd h1
  refine ⟨h1, h2, by decide,
    BuildSites.ratingPre (BuildSites.mkBusiness u pf row idx seen),
    BuildSites.ratingSuf (BuildSites.mkBusiness u pf row idx seen), ?_⟩
  rw [BuildSites.render_card_rating_split, h2]
  have hesc : Py.escape "--".data = "--".data := by decide
  rw [hesc]

/-- C4, witness: a concrete row with the unparseable rating cell `x.y`
under the everywhere-failing float parser. -/
theorem claim_C4_witness :
    (Py.strip (("m".data :: "Nm".data :: "x.y".data :: []).getD 2 []) = [] ∨
      (fun _ : Str => (none : Option Unit))
        (("m".data :: "Nm".data :: "x.y".data :: []).getD 2 []) = none) ∧
    ((BuildSites.mkBusiness ucdSample (fun _ : Str => (none : Option Unit))
        ("m".data :: "Nm".data :: "x.y".data :: []) 1 []).rating = none ∧
     BuildSites.formatted_rating (fun _ : Unit => []) (fun _ : Unit => 0)
        (BuildSites.mkBusiness ucdSample (fun _ : Str => (none : Option Unit))
          ("m".data :: "Nm".data :: "x.y".data :: []) 1 []) = "--".data ∧
     "--".data ≠ "0.0".data ∧
     ∃ pre suf, BuildSites.render_card (fun _ : Unit => []) (fun _ : Unit => 0)
        (BuildSites.mkBusiness ucdSample (fun _ : Str => (none : Option Unit))
          ("m".data :: "Nm".data :: "x.y".data :: []) 1 []) =
        pre ++ "--".data ++ suf) :=
  ⟨Or.inr rfl,
    claim_C4_rating_placeholder ucdSample (fun _ : Str => (none : Option Unit))
      (fun _ : Unit => []) (fun _ : Unit => 0)
      ("m".data :: "Nm".data :: "x.y".data :: []) 1 [] (Or.inr rfl)⟩

/-- C5 (amended): the generate and scripts variants allocate slugs over the
lower-case URL-safe alphabet `[a-z0-9-]`; the build variant keeps ASCII
alphanumerics, CJK ideographs and the dash but never lower-cases, so its
slugs may carry upper-case letters. -/
theorem claim_C5_slug_charset {α : Type} (u : UniModel) (nfkd nfkd2 : Str → Str)
    (pf : Str → Option α) (name : Str) (idx : Nat) (existing : List Str)
    (srow : Scripts.Row) (sindex : Nat) (sexisting : List Str)
    (brow : List Str) (bidx : Nat) (bseen : List Str) :
    (∀ c ∈ GenSites.slugify nfkd name idx existing, Py.isLowerSlugChar c = true) ∧
    (∀ c ∈ (Scripts.mkStore nfkd2 srow sindex sexisting).slug,
      Py.isLowerSlugChar c = true) ∧
    (∀ c ∈ (BuildSites.mkBusiness u pf brow bidx bseen).slug,
      BuildSites.isSlugCharB c = true) :=
  ⟨GenSites.slugifyG_chars nfkd name idx existing,
    Scripts.mkStore_slug_chars nfkd2 srow sindex sexisting,
    BuildSites.mkBusiness_slug_chars u pf brow bidx bseen⟩

/-- C5, counterexample: the build variant keeps `J` upper-case in the slug
of "Joe's Plumbing", so the claimed lower-casing does not hold there. -/
theorem claim_C5_counterexample :
    'J' ∈ BuildSites.slugify "Joe\x27s Plumbing".data 1 ∧
      Py.isLowerSlugChar 'J' = false := by
  decide

unseal Py.decStr Py.suffixLoop in
/-- C6 (amended): a colliding candidate gets the first free numeric suffix
counting up from 2; but the apostrophe of "Joe's Plumbing" is itself
replaced by the separator, so the generate variant gives the two rows
`joe-s-plumbing` and `joe-s-plumbing-2`, not `joes-plumbing`. -/
theorem claim_C6_suffix_collision (base : Str) (existing : List Str)
    (hmem : base ∈ existing) :
    (∃ k, 2 ≤ k ∧ Py.allocSlug base existing = Py.cand base k ∧
      Py.cand base k ∉ existing ∧ ∀ m, 2 ≤ m → m < k → Py.cand base m ∈ existing) ∧
    GenSites.slugify id "Joe\x27s Plumbing".data 0 [] = "joe-s-plumbing".data ∧
    GenSites.slugify id "Joe\x27s Plumbing".data 1 ["joe-s-plumbing".data] =
      "joe-s-plumbing-2".data := by
  refine ⟨?_, by decide, by decide⟩
  rw [Py.allocSlug, if_pos hmem]
  exact Py.suffixLoop_least base existing 2

/-- C6, witness: the colliding base "a". -/
theorem claim_C6_witness :
    "a".data ∈ ["a".data] ∧
    ((∃ k, 2 ≤ k ∧ Py.allocSlug "a".data ["a".data] = Py.cand "a".data k ∧
      Py.cand "a".data k ∉ ["a".data] ∧
      ∀ m, 2 ≤ m → m < k → Py.cand "a".data m ∈ ["a".data]) ∧
    GenSites.slugify id "Joe\x27s Plumbing".data 0 [] = "joe-s-plumbing".data ∧
    GenSites.slugify id "Joe\x27s Plumbing".data 1 ["joe-s-plumbing".data] =
      "joe-s-plumbing-2".data) :=
  ⟨by decide, claim_C6_suffix_collision "a".data ["a".data] (by decide)⟩

unseal Py.decStr Py.suffixLoop in
/-- C6, counterexample: the first "Joe's Plumbing" row does not get the
slug `joes-plumbing` claimed by the scenario — the apostrophe becomes a
separator. -/
theorem claim_C6_counterexample :
    GenSites.slugify id "Joe\x27s Plumbing".data 0 [] ≠ "joes-plumbing".data := by
  decide

/-- C7 (amended): tel: links are omitted entirely when the phone is absent
— the build card, the generate detail page and the scripts detail page all
render no phone button at all; map links are omitted only in the scripts
variant — the build card renders its map anchor unconditionally (empty href
for an empty map URL) and the generate variant substitutes the placeholder
target `#` for a missing map URL. -/
theorem claim_C7_link_omission {α : Type} (fmt : α → Str) (rnd : α → Nat)
    (nfkd : Str → Str) (pf : Str → Option α) (index : Nat) (used : List Str)
    (b : BuildSites.Business α) (s : GenSites.Shop α) (st : Scripts.Store)
    (p u2 : Str) (row : List Str)
    (hp : p ≠ []) (hu : u2 ≠ []) (hrow : GenSites.tidy (row.getD 0 []) = none) :
    (BuildSites.render_card fmt rnd { b with phone := none } =
      BuildSites.cardPrefix fmt rnd b ++ BuildSites.cardSuffix) ∧
    (BuildSites.render_card fmt rnd { b with phone := some p } =
      BuildSites.cardPrefix fmt rnd b ++ BuildSites.telAnchor p ++
        BuildSites.cardSuffix) ∧
    (GenSites.write_shop_page fmt { s with phone := none } =
      GenSites.shopPageA fmt s ++ "尚無電話資訊".data ++ GenSites.shopPageB s ++
        GenSites.mapAction s.map_url ++ GenSites.shopPageC s) ∧
    ((GenSites.mkShop nfkd pf row index used).map_url = "#".data) ∧
    (Scripts._render_store { st with phone := none } =
      Scripts.phoneStoreA st ++ Scripts.phoneStoreB st ++ "未提供".data ++
        Scripts.phoneStoreC st) ∧
    (Scripts._render_store { st with phone := some p } =
      Scripts.phoneStoreA st ++ Scripts.phoneButton p ++ Scripts.phoneStoreB st ++
        Py.escape p ++ Scripts.phoneStoreC st) ∧
    (Scripts._render_store { st with map_url := none } =
      Scripts.storeA st ++ Scripts.storeB st ++ "未提供".data ++ Scripts.storeC st) ∧
    (Scripts._render_store { st with map_url := some u2 } =
      Scripts.storeA st ++ Scripts.mapButton u2 ++ Scripts.storeB st ++
        Scripts.mapLinkAnchor u2 ++ Scripts.storeC st) := by
  refine ⟨(BuildSites.render_card_phone_split fmt rnd b).1,
    (BuildSites.render_card_phone_split fmt rnd b).2 p hp,
    (GenSites.write_shop_page_phone_split fmt s).1, ?_,
    (Scripts.render_store_phone_split st).1,
    (Scripts.render_store_phone_split st).2 p hp,
    (Scripts.render_store_map_split st).1,
    (Scripts.render_store_map_split st).2 u2 hu⟩
  show (match GenSites.tidy (row.getD 0 []) with
    | some x => x
    | none => "#".data) = "#".data
  rw [hrow]

/-- C7, witness: the concrete listings `wBusiness`, `wShop`, `wStore` with
phone "5", map URL "m" and an empty row. -/
theorem claim_C7_witness :
    ("5".data ≠ ([] : Str)) ∧ ("m".data ≠ ([] : Str)) ∧
    GenSites.tidy (([] : List Str).getD 0 []) = none ∧
    ((BuildSites.render_card (fun _ : Unit => []) (fun _ : Unit => 0)
        { wBusiness with phone := none } =
      BuildSites.cardPrefix (fun _ : Unit => []) (fun _ : Unit => 0) wBusiness ++
        BuildSites.cardSuffix) ∧
    (BuildSites.render_card (fun _ : Unit => []) (fun _ : Unit => 0)
        { wBusiness with phone := some "5".data } =
      BuildSites.cardPrefix (fun _ : Unit => []) (fun _ : Unit => 0) wBusiness ++
        BuildSites.telAnchor "5".data ++ BuildSites.cardSuffix) ∧
    (GenSites.write_shop_page (fun _ : Unit => []) { wShop with phone := none } =
      GenSites.shopPageA (fun _ : Unit => []) wShop ++ "尚無電話資訊".data ++
        GenSites.shopPageB wShop ++ GenSites.mapAction wShop.map_url ++
        GenSites.shopPageC wShop) ∧
    ((GenSites.mkShop id (fun _ : Str => (none : Option Unit)) [] 0 []).map_url =
      "#".data) ∧
    (Scripts._render_store { wStore with phone := none } =
      Scripts.phoneStoreA wStore ++ Scripts.phoneStoreB wStore ++ "未提供".data ++
        Scripts.phoneStoreC wStore) ∧
    (Scripts._render_store { wStore with phone := some "5".data } =
      Scripts.phoneStoreA wStore ++ Scripts.phoneButton "5".data ++
        Scripts.phoneStoreB wStore ++ Py.escape "5".data ++
        Scripts.phoneStoreC wStore) ∧
    (Scripts._render_store { wStore with map_url := none } =
      Scripts.storeA wStore ++ Scripts.storeB wStore ++ "未提供".data ++
        Scripts.storeC wStore) ∧
    (Scripts._render_store { wStore with map_url := some "m".data } =
      Scripts.storeA wStore ++ Scripts.mapButton "m".data ++ Scripts.storeB wStore ++
        Scripts.mapLinkAnchor "m".data ++ Scripts.storeC wStore)) :=
  ⟨by decide, by decide, rfl,
    claim_C7_link_omission (fun _ : Unit => []) (fun _ : Unit => 0) id
      (fun _ : Str => (none : Option Unit)) 0 [] wBusiness wShop wStore
      "5".data "m".data [] (by decide) (by decide) rfl⟩

/-- C7, counterexample: the build-variant card of a business with an empty
map URL still contains a map anchor with an empty href, so the map link is
not omitted when the field is absent. -/
theorem claim_C7_counterexample :
    Py.containsSub "<a class=\"button-ghost\" href=\"\" target=".data
      (BuildSites.render_card (fun _ : Unit => []) (fun _ : Unit => 0) wBusiness) =
      true := by
  decide

/-- C8 (amended): the build- and generate-variant feature/highlight lists
are duplicate-free and exclude the bullet-only cell `·` (it cleans to the
empty string and is discarded).  The original claim's stronger clauses fail:
the scripts variant, whose `_collect` does no deduplication, retains exact
duplicates, and a pure-punctuation cell that is neither short nor of
Unicode category S — such as three exclamation marks — survives both the
build and the generate pipelines (see the counterexample). -/
theorem claim_C8_feature_hygiene {α : Type} (u : UniModel) (nfkd : Str → Str)
    (pf pf2 : Str → Option α) (brow : List Str) (bidx : Nat) (bseen : List Str)
    (grow : List Str) (gidx : Nat) (gused : List Str) :
    (BuildSites.mkBusiness u pf brow bidx bseen).features.Nodup ∧
    BuildSites.clean_feature u "·".data = none ∧
    (GenSites.mkShop nfkd pf2 grow gidx gused).highlights.Nodup ∧
    (∀ x ∈ (GenSites.mkShop nfkd pf2 grow gidx gused).highlights, x ≠ "·".data) ∧
    GenSites.tidy "·".data = none := by
  refine ⟨?_, rfl, ?_, ?_, rfl⟩
  · show (BuildSites.collectFeatures u (brow.drop 11) []).Nodup
    exact BuildSites.collectFeatures_nodup u _ [] List.nodup_nil
  · show (GenSites.collect_highlights (grow.drop 11)).1.Nodup
    exact GenSites.collectGo_nodup _ [] false List.nodup_nil
  · intro x hx
    have hx2 : x ∈ (GenSites.collect_highlights (grow.drop 11)).1 := hx
    exact (GenSites.collectGo_mem _ [] false (by simp) x hx2).2.1

unseal Py.decStr Py.suffixLoop in
/-- C8, counterexample: a scripts-variant row with the same text under two
highlight keys parses to a store whose highlight list holds a duplicate —
`_collect` never deduplicates; and the pure-punctuation cell `!!!` is not
excluded: it passes `clean_feature` (length 3 escapes the short-token
check, and `!` has Unicode category Po, not S) and `tidy`, reaching the
feature lists of both the build and the generate variants. -/
theorem claim_C8_counterexample :
    ¬ (Scripts.mkStore id [("LDHnMb".data, "A".data), ("c2ePGf".data, "A".data)]
        1 []).highlights.Nodup ∧
    BuildSites.clean_feature ucdSample "!!!".data = some "!!!".data ∧
    (BuildSites.mkBusiness ucdSample (fun _ : Str => (none : Option Unit))
        (List.replicate 11 [] ++ ["!!!".data]) 1 []).features = ["!!!".data] ∧
    GenSites.tidy "!!!".data = some "!!!".data ∧
    (GenSites.mkShop id (fun _ : Str => (none : Option Unit))
        (List.replicate 11 [] ++ ["!!!".data]) 0 []).highlights = ["!!!".data] := by
  refine ⟨by decide, by decide, by decide, by decide, by decide⟩

/-- C9: the emitted index document is a function of the parsed rows alone —
whatever orders the two Python sets are enumerated in, `build_index_page`
sorts the distinct non-empty categories and statuses into the same option
lists, so two runs over the same input produce identical bytes. -/
theorem claim_C9_determinism {α : Type} (fmt : α → Str) (rnd : α → Nat)
    (bs : List (BuildSites.Business α)) (e₁ e₂ f₁ f₂ : List Str)
    (he₁ : e₁.Perm (BuildSites.distinctCategories bs))
    (he₂ : e₂.Perm (BuildSites.distinctCategories bs))
    (hf₁ : f₁.Perm (BuildSites.distinctStatuses bs))
    (hf₂ : f₂.Perm (BuildSites.distinctStatuses bs)) :
    BuildSites.build_index_page fmt rnd bs e₁ f₁ =
      BuildSites.build_index_page fmt rnd bs e₂ f₂ :=
  BuildSites.build_index_page_det fmt rnd bs e₁ e₂ f₁ f₂ he₁ he₂ hf₁ hf₂

/-- C9, witness: the two-business collection `wBusinesses` with its
category set enumerated in both orders. -/
theorem claim_C9_witness :
    BuildSites.build_index_page (fun _ : Unit => []) (fun _ : Unit => 0) wBusinesses
      ["b".data, "a".data] ["s".data] =
    BuildSites.build_index_page (fun _ : Unit => []) (fun _ : Unit => 0) wBusinesses
      ["a".data, "b".data] ["s".data] :=
  claim_C9_determinism (fun _ : Unit => []) (fun _ : Unit => 0) wBusinesses
    ["b".data, "a".data] ["a".data, "b".data] ["s".data] ["s".data]
    (by decide) (by decide) (by decide) (by decide)

/-- C10: in `build_sites.py` a review count of exactly 0 is falsy, so the
review suffix of `formatted_rating` is dropped exactly as for an absent
count, and the rendered card of such a listing is byte-identical to that of
a listing with no review information. -/
theorem claim_C10_zero_reviews {α : Type} (fmt : α → Str) (rnd : α → Nat)
    (b : BuildSites.Business α) :
    BuildSites.formatted_rating fmt rnd { b with review_count := some 0 } =
      BuildSites.formatted_rating fmt rnd { b with review_count := none } ∧
    BuildSites.render_card fmt rnd { b with review_count := some 0 } =
      BuildSites.render_card fmt rnd { b with review_count := none } :=
  ⟨rfl, rfl⟩
